import Mathlib

/-!
# Verification of the IR-generator dialogue core

Shallow embedding of the registration / incident-report (IR) wizard:
`config.py`, `services/registration_service.py`, `handlers/message_handler.py`,
`handlers/callback_handler.py`, `handlers/command_handler.py`.

Python strings are modelled as Lean `String` (a wrapper around `List Char`);
the ASCII-level string primitives used by the code (`str.strip`, `str.upper`,
`str.split`, regex character classes) are embedded as explicit `List Char`
functions below.  Persistence (`_save_users`) is modelled by a boolean
save-outcome parameter: `_update_user_profile` always mutates the in-memory
record and the disk copy is refreshed only when the save succeeds, exactly as
in the Python code.
-/

namespace IRGen

/-! ## Character-level primitives (ASCII embedding of Python `str` methods) -/

/-- Python whitespace for `str.strip` / `str.split()` / regex `\s`:
space, tab, newline, carriage return, vertical tab, form feed. -/
def isSpace (c : Char) : Bool :=
  c.toNat == 32 || c.toNat == 9 || c.toNat == 10 || c.toNat == 13 ||
  c.toNat == 11 || c.toNat == 12

/-- ASCII decimal digit (regex `\d` on the inputs in scope). -/
def isDigitC (c : Char) : Bool := 48 ≤ c.toNat && c.toNat ≤ 57

/-- ASCII uppercase letter (regex `[A-Z]`). -/
def isUpperC (c : Char) : Bool := 65 ≤ c.toNat && c.toNat ≤ 90

/-- ASCII lowercase letter (regex `[a-z]`). -/
def isLowerC (c : Char) : Bool := 97 ≤ c.toNat && c.toNat ≤ 122

/-- ASCII letter (regex `[A-Za-z]`). -/
def isAlphaC (c : Char) : Bool := isUpperC c || isLowerC c

/-- ASCII uppercasing of a single character (Python `str.upper` on ASCII). -/
def upChar (c : Char) : Char :=
  match c with
  | 'a' => 'A' | 'b' => 'B' | 'c' => 'C' | 'd' => 'D' | 'e' => 'E' | 'f' => 'F'
  | 'g' => 'G' | 'h' => 'H' | 'i' => 'I' | 'j' => 'J' | 'k' => 'K' | 'l' => 'L'
  | 'm' => 'M' | 'n' => 'N' | 'o' => 'O' | 'p' => 'P' | 'q' => 'Q' | 'r' => 'R'
  | 's' => 'S' | 't' => 'T' | 'u' => 'U' | 'v' => 'V' | 'w' => 'W' | 'x' => 'X'
  | 'y' => 'Y' | 'z' => 'Z'
  | other => other

/-- Python `str.strip()` on a character list. -/
def pyStripL (l : List Char) : List Char :=
  ((l.dropWhile isSpace).reverse.dropWhile isSpace).reverse

/-- Python `str.strip()`. -/
def pyStrip (s : String) : String := ⟨pyStripL s.toList⟩

/-- Python `str.upper()` (ASCII fragment). -/
def pyUpper (s : String) : String := ⟨s.toList.map upChar⟩

/-- Helper for `pyWords`: split a character list into maximal runs of
non-whitespace characters, accumulating the current word reversed. -/
def wordsAux : List Char → List Char → List (List Char)
  | [], acc => if acc.isEmpty then [] else [acc.reverse]
  | c :: rest, acc =>
    if isSpace c then
      if acc.isEmpty then wordsAux rest [] else acc.reverse :: wordsAux rest []
    else wordsAux rest (c :: acc)

/-- Python `str.split()` with no argument: whitespace-separated words,
empty strings dropped. -/
def pyWords (s : String) : List String :=
  (wordsAux s.toList []).map (fun l => ⟨l⟩)

/-- Helper for `pySplitSlash`: Python `str.split('/')` on a character list
(keeps empty components). -/
def splitSlashL : List Char → List (List Char)
  | [] => [[]]
  | c :: rest =>
    if c == '/' then [] :: splitSlashL rest
    else
      match splitSlashL rest with
      | [] => [[c]]
      | w :: ws => (c :: w) :: ws

/-- Python `str.split('/')`. -/
def pySplitSlash (s : String) : List String :=
  (splitSlashL s.toList).map (fun l => ⟨l⟩)

/-- `startsWithL l pat`: `l` begins with `pat` (Python `str.startswith`). -/
def startsWithL : List Char → List Char → Bool
  | _, [] => true
  | [], _ :: _ => false
  | c :: cs, d :: ds => c == d && startsWithL cs ds

/-- Python `str.startswith`. -/
def pyStartsWith (s pre : String) : Bool := startsWithL s.toList pre.toList

/-- `containsSeq l pat`: `pat` occurs as a contiguous subsequence of `l`
(Python `pat in s`). -/
def containsSeq : List Char → List Char → Bool
  | [], pat => pat.isEmpty
  | l@(_ :: rest), pat => startsWithL l pat || containsSeq rest pat

/-- Python `"FINAL" in s`. -/
def containsFinal (s : String) : Bool := containsSeq s.toList "FINAL".toList

/-- Value of a decimal digit character. -/
def digVal (c : Char) : Nat := c.toNat - 48

/-- Python `int(...)` on a (non-empty, all-digit) character list. -/
def natOfDigits (l : List Char) : Nat := l.foldl (fun n c => 10 * n + digVal c) 0

/-! ## `config.py` constants -/

/-- `config.VALID_RANKS`. -/
def VALID_RANKS : List String :=
  ["REC", "PTE", "LCP", "CPL", "CFC", "3SG", "2SG", "1SG", "SSG", "MSG",
   "3WO", "2WO", "1WO", "SWO", "CWO", "OCT", "2LT", "LTA", "CPT", "MAJ",
   "LTC", "SLTC", "COL", "BG", "MG", "LG"]

/-- `config.MAX_IR_CONTENT_LENGTH`. -/
def MAX_IR_CONTENT_LENGTH : Nat := 4000

namespace UserState

/-- `config.UserState.IDLE`. -/
def IDLE : String := "idle"

/-- `config.UserState.AWAITING_RANK`. -/
def AWAITING_RANK : String := "awaiting_rank"

/-- `config.UserState.AWAITING_NAME`. -/
def AWAITING_NAME : String := "awaiting_name"

/-- `config.UserState.AWAITING_COMPANY`. -/
def AWAITING_COMPANY : String := "awaiting_company"

/-- `config.UserState.AWAITING_UNIT`. -/
def AWAITING_UNIT : String := "awaiting_unit"

/-- `config.UserState.AWAITING_CONTACT`. -/
def AWAITING_CONTACT : String := "awaiting_contact"

/-- `config.UserState.AWAITING_IR_TYPE`. -/
def AWAITING_IR_TYPE : String := "awaiting_ir_type"

/-- `config.UserState.AWAITING_NATURE_TYPE`. -/
def AWAITING_NATURE_TYPE : String := "awaiting_nature_type"

/-- `config.UserState.AWAITING_DATE_TIME`. -/
def AWAITING_DATE_TIME : String := "awaiting_date_time"

/-- `config.UserState.AWAITING_SERVICEMAN`. -/
def AWAITING_SERVICEMAN : String := "awaiting_serviceman"

/-- `config.UserState.AWAITING_LOCATION`. -/
def AWAITING_LOCATION : String := "awaiting_location"

/-- `config.UserState.AWAITING_INJURY`. -/
def AWAITING_INJURY : String := "awaiting_injury"

/-- `config.UserState.AWAITING_DESCRIPTION`. -/
def AWAITING_DESCRIPTION : String := "awaiting_description"

/-- `config.UserState.AWAITING_FOLLOWUP`. -/
def AWAITING_FOLLOWUP : String := "awaiting_followup"

/-- `config.UserState.EDITING_RANK`. -/
def EDITING_RANK : String := "editing_rank"

/-- `config.UserState.EDITING_NAME`. -/
def EDITING_NAME : String := "editing_name"

/-- `config.UserState.EDITING_COMPANY`. -/
def EDITING_COMPANY : String := "editing_company"

/-- `config.UserState.EDITING_UNIT`. -/
def EDITING_UNIT : String := "editing_unit"

/-- `config.UserState.EDITING_CONTACT`. -/
def EDITING_CONTACT : String := "editing_contact"

end UserState

/-! ## Validators (`services/registration_service.py`)

Each validator returns the same tuple shape as the Python method:
`(is_valid, error_message)`, or with extra normalized components where the
source returns them. -/

/-- `RegistrationService.validate_rank`. -/
def validate_rank (rank : String) : Bool × String :=
  let r := pyUpper (pyStrip rank)
  if r == "" then (false, "Rank cannot be empty.")
  else if !(VALID_RANKS.contains r) then
    (false, "Invalid rank: " ++ r ++ "\n\nValid ranks: " ++ String.intercalate ", " VALID_RANKS)
  else (true, "")

/-- Character class of the name regex `[A-Za-z\s\-\'.]` (39 is the apostrophe). -/
def nameChar (c : Char) : Bool :=
  isAlphaC c || isSpace c || c == '-' || c.toNat == 39 || c == '.'

/-- `RegistrationService.validate_name`. -/
def validate_name (name : String) : Bool × String :=
  let n := pyStrip name
  if n == "" then (false, "Name cannot be empty.")
  else if !(n.toList.all nameChar) then
    (false, "Name can only contain letters, spaces, hyphens, and apostrophes.")
  else if n.toList.length < 2 then
    (false, "Name must be at least 2 characters long.")
  else (true, "")

/-- Character class of the company regex `[A-Za-z0-9\s\-\'.&()]`. -/
def companyChar (c : Char) : Bool :=
  isAlphaC c || isDigitC c || isSpace c || c == '-' || c.toNat == 39 || c == '.' ||
  c == '&' || c == '(' || c == ')'

/-- `RegistrationService.validate_company`. -/
def validate_company (company : String) : Bool × String :=
  let co := pyStrip company
  if co == "" then (false, "Company cannot be empty.")
  else if !(co.toList.all companyChar) then
    (false, "Company can only contain letters, numbers, spaces, hyphens, apostrophes, periods, ampersands, and parentheses.")
  else if co.toList.length < 1 then
    (false, "Company must be at least 1 character long.")
  else (true, "")

/-- Character class of the unit regex `[A-Za-z0-9\s\-\'.&()/]`. -/
def unitChar (c : Char) : Bool := companyChar c || c == '/'

/-- `RegistrationService.validate_unit`. -/
def validate_unit (unit : String) : Bool × String :=
  let u := pyStrip unit
  if u == "" then (false, "Unit cannot be empty.")
  else if !(u.toList.all unitChar) then
    (false, "Unit can only contain letters, numbers, spaces, hyphens, apostrophes, periods, ampersands, parentheses, and forward slashes.")
  else if u.toList.length < 1 then
    (false, "Unit must be at least 1 character long.")
  else (true, "")

/-- Characters removed by `re.sub(r'[\s\-\+\(\)]', '', contact)`:
whitespace, hyphen (45), plus (43) and parentheses (40, 41). -/
def sepChar (c : Char) : Bool :=
  isSpace c || c.toNat == 45 || c.toNat == 43 || c.toNat == 40 || c.toNat == 41

/-- The separator-stripping and `65`-prefix-dropping normalization shared by
`validate_contact_number`, `register_user` and `update_single_field`. -/
def cleanContact (s : String) : String :=
  let cl := s.toList.filter (fun c => !sepChar c)
  if startsWithL cl ['6', '5'] && cl.length == 10 then ⟨cl.drop 2⟩ else ⟨cl⟩

/-- The final pattern `^[89]\d{7}$` of `validate_contact_number`. -/
def isLocalContact (s : String) : Bool :=
  match s.toList with
  | c :: rest => (c == '8' || c == '9') && rest.length == 7 && rest.all isDigitC
  | [] => false

/-- `RegistrationService.validate_contact_number`. -/
def validate_contact_number (contact : String) : Bool × String :=
  let ct := pyStrip contact
  if ct == "" then (false, "Contact number cannot be empty.")
  else if !(isLocalContact (cleanContact ct)) then
    (false, "Please provide a valid Singapore mobile number (8 digits starting with 8 or 9, e.g., 91234567).")
  else (true, "")

/-- `RegistrationService.validate_ir_content`. -/
def validate_ir_content (content : String) : Bool × String :=
  let c := pyStrip content
  if c == "" then (false, "IR content cannot be empty.")
  else if c.toList.length > MAX_IR_CONTENT_LENGTH then
    (false, "IR content is too long. Please keep it under 4000 characters.")
  else (true, "")

/-- `config.DATE_PATTERN = r'^\d{6}$'`. -/
def matchDateL : List Char → Bool
  | [a, b, c, d, e, f] =>
    isDigitC a && isDigitC b && isDigitC c && isDigitC d && isDigitC e && isDigitC f
  | _ => false

/-- `config.TIME_PATTERN = r'^\d{4}HRS?$'`: four digits, a mandatory `HR`, and
an optional trailing `S`. -/
def matchTimeL : List Char → Bool
  | [a, b, c, d, 'H', 'R'] => isDigitC a && isDigitC b && isDigitC c && isDigitC d
  | [a, b, c, d, 'H', 'R', 'S'] => isDigitC a && isDigitC b && isDigitC c && isDigitC d
  | _ => false

/-- `RegistrationService.validate_date_time`; returns
`(is_valid, date_part, time_part, error_message)` like the source. -/
def validate_date_time (date_time_input : String) : Bool × String × String × String :=
  let s := pyStrip date_time_input
  if s == "" then (false, "", "", "Date and time cannot be empty.")
  else
    match pyWords s with
    | [date_part, time_raw] =>
      let time_part := pyUpper time_raw
      if !(matchDateL date_part.toList) then
        (false, "", "", "Date must be in DDMMYY format (e.g., 160625)")
      else if !(matchTimeL time_part.toList) then
        (false, "", "", "Time must be in HHMMHRS format (e.g., 1730HRS)")
      else
        let tl := time_part.toList
        let hours := natOfDigits (tl.take 2)
        let minutes := natOfDigits ((tl.take 4).drop 2)
        if hours > 23 || minutes > 59 then
          (false, "", "", "Invalid time. Hours must be 00-23, minutes must be 00-59")
        else
          let dl := date_part.toList
          let day := natOfDigits (dl.take 2)
          let month := natOfDigits ((dl.take 4).drop 2)
          if day < 1 || day > 31 || month < 1 || month > 12 then
            (false, "", "", "Invalid date. Please check day (01-31) and month (01-12)")
          else (true, date_part, ⟨tl.take 4⟩, "")
    | _ => (false, "", "", "Please provide date and time in format: DDMMYY HHMMHRS")

/-- `config.NRIC_PATTERN = r'^[A-Z]\d{7}[A-Z]$'` (matched against the
uppercased component). -/
def matchNricL : List Char → Bool
  | [x, a, b, c, d, e, f, g, y] =>
    isUpperC x && isDigitC a && isDigitC b && isDigitC c && isDigitC d &&
    isDigitC e && isDigitC f && isDigitC g && isUpperC y
  | _ => false

/-- `config.PES_PATTERN = r'^PES [A-F][1-9]$'` (matched against the uppercased
component). -/
def matchPesL : List Char → Bool
  | ['P', 'E', 'S', ' ', x, y] =>
    (65 ≤ x.toNat && x.toNat ≤ 70) && (49 ≤ y.toNat && y.toNat ≤ 57)
  | _ => false

/-- The formatted NRIC of `validate_serviceman_details`:
`nric[0].upper() + "/" + nric[1:].upper()`. -/
def formatNric (nric : String) : String :=
  match nric.toList with
  | c :: rest => ⟨upChar c :: '/' :: rest.map upChar⟩
  | [] => ⟨['/']⟩

/-- `RegistrationService.validate_serviceman_details`; returns
`(is_valid, formatted_details, error_message)` like the source. -/
def validate_serviceman_details (details : String) : Bool × String × String :=
  let d := pyStrip details
  if d == "" then (false, "", "Serviceman details cannot be empty.")
  else
    match pySplitSlash d with
    | [c1, c2, c3, c4, c5] =>
      let nric := pyStrip c1
      let rank_name := pyStrip c2
      let four_d := pyStrip c3
      let nsf := pyStrip c4
      let pes := pyStrip c5
      if !(matchNricL (pyUpper nric).toList) then
        (false, "", "NRIC must be in format: Letter + 7 digits + Letter (e.g., T0123456D)")
      else if !(matchPesL (pyUpper pes).toList) then
        (false, "", "PES must be in format: PES [A-F][1-4] (e.g., PES B1)")
      else if rank_name == "" then (false, "", "Rank and name cannot be empty")
      else if four_d == "" then (false, "", "4D number cannot be empty")
      else if pyUpper nsf != "NSF" then (false, "", "Fourth field must be 'NSF'")
      else
        (true,
         formatNric nric ++ "/" ++ pyUpper rank_name ++ "/" ++ pyUpper four_d ++
           "/" ++ pyUpper nsf ++ "/" ++ pyUpper pes,
         "")
    | _ => (false, "", "Please provide all 5 components: NRIC/RANK NAME/4D/NSF/PES")

/-! ## User record (`config.DEFAULT_USER_PROFILE`) and temp-data dictionary -/

/-- The per-user profile dictionary (`DEFAULT_USER_PROFILE` shape).  `temp_data`
is the scratch dictionary, modelled as an association list in insertion
order. -/
structure UserProfile where
  rank : Option String
  full_name : Option String
  company : Option String
  unit : Option String
  contact_number : Option String
  registered : Bool
  state : String
  temp_data : List (String × String)
  deriving Repr, DecidableEq

/-- `config.DEFAULT_USER_PROFILE`. -/
def defaultUserProfile : UserProfile :=
  { rank := none, full_name := none, company := none, unit := none,
    contact_number := none, registered := false, state := UserState.IDLE,
    temp_data := [] }

/-- Python `temp_data.get(key)`. -/
def tdGet : List (String × String) → String → Option String
  | [], _ => none
  | (k, v) :: rest, key => if k == key then some v else tdGet rest key

/-- Python `temp_data[key] = value`: replace the entry in place if the key is
present, otherwise append (the dictionaries built by the code have unique
keys, so replacing the first occurrence is dict assignment). -/
def tdSet : List (String × String) → String → String → List (String × String)
  | [], key, value => [(key, value)]
  | (k1, v1) :: tl, key, value =>
    if k1 == key then (key, value) :: tl else (k1, v1) :: tdSet tl key value

/-- Python `temp_data.pop(key, None)` restricted to its effect on the dict. -/
def tdPop (td : List (String × String)) (key : String) : List (String × String) :=
  td.filter (fun p => p.1 != key)

/-! ## Profile-store operations (`RegistrationService`)

`_update_user_profile` first mutates the in-memory profile and then attempts
the disk write; all profile-level operations below are the in-memory effect.
The two-level memory/disk view needed for the storage-failure analysis is the
`Store` structure further down. -/

/-- `RegistrationService.set_user_state`: sets the state and clears
`temp_data` exactly when the new state is `IDLE`. -/
def set_user_state (p : UserProfile) (state : String) : UserProfile :=
  if state == UserState.IDLE then { p with state := state, temp_data := [] }
  else { p with state := state }

/-- `RegistrationService.clear_user_state`. -/
def clear_user_state (p : UserProfile) : UserProfile :=
  { p with state := UserState.IDLE, temp_data := [] }

/-- `RegistrationService.store_user_temp_data`. -/
def store_user_temp_data (p : UserProfile) (key value : String) : UserProfile :=
  { p with temp_data := tdSet p.temp_data key value }

/-- `RegistrationService.get_user_temp_data`. -/
def get_user_temp_data (p : UserProfile) (key : String) : Option String :=
  tdGet p.temp_data key

/-- The IR keys cleared by `start_ir_creation`. -/
def irKeys : List String :=
  ["ir_type", "nature_type", "date_incident", "time_incident",
   "serviceman_details", "location", "injury_damage", "description", "followup"]

/-- `RegistrationService.start_ir_creation`: enter `AWAITING_IR_TYPE`, then pop
every IR-related key from the scratch dictionary. -/
def start_ir_creation (p : UserProfile) : UserProfile :=
  let p1 := set_user_state p UserState.AWAITING_IR_TYPE
  { p1 with temp_data := irKeys.foldl tdPop p1.temp_data }

/-- In-memory effect of `RegistrationService.register_user`: one
`_update_user_profile` call writing all five particulars, the `registered`
flag, the `IDLE` state and an empty scratch together. -/
def register_user_mem (p : UserProfile)
    (rank full_name company unit contact_number : String) : UserProfile :=
  { p with
    rank := some (pyStrip (pyUpper rank)),
    full_name := some (pyStrip (pyUpper full_name)),
    company := some (pyStrip (pyUpper company)),
    unit := some (pyStrip (pyUpper unit)),
    contact_number := some (cleanContact contact_number),
    registered := true,
    state := UserState.IDLE,
    temp_data := [] }

/-- In-memory effect of `RegistrationService.update_single_field` together with
its returned success flag.  The write is attempted only for a registered user;
the returned Bool is the save outcome (`_save_users`), threaded in as
`saveOk`.  The catch-all branch is unreachable from the handlers, which only
pass the five field names below. -/
def update_single_field (p : UserProfile) (field value : String) (saveOk : Bool) :
    UserProfile × Bool :=
  if !p.registered then (p, false)
  else
    let p1 :=
      if field == "contact_number" then { p with contact_number := some (cleanContact value) }
      else if field == "rank" then { p with rank := some (pyStrip (pyUpper value)) }
      else if field == "full_name" then { p with full_name := some (pyStrip (pyUpper value)) }
      else if field == "company" then { p with company := some (pyStrip (pyUpper value)) }
      else if field == "unit" then { p with unit := some (pyStrip (pyUpper value)) }
      else p
    (p1, saveOk)

/-- The comprehensive-IR draft as read back by
`RegistrationService.get_comprehensive_ir_data`. -/
structure IRData where
  ir_type : String
  nature_type : String
  date_incident : String
  time_incident : String
  serviceman_details : String
  location : String
  injury_damage : String
  description : String
  followup : String
  deriving Repr, DecidableEq

/-- `RegistrationService.get_comprehensive_ir_data`
(`temp_data.get(key, '')` for each of the nine draft keys). -/
def get_comprehensive_ir_data (p : UserProfile) : IRData :=
  { ir_type := (tdGet p.temp_data "ir_type").getD "",
    nature_type := (tdGet p.temp_data "nature_type").getD "",
    date_incident := (tdGet p.temp_data "date_incident").getD "",
    time_incident := (tdGet p.temp_data "time_incident").getD "",
    serviceman_details := (tdGet p.temp_data "serviceman_details").getD "",
    location := (tdGet p.temp_data "location").getD "",
    injury_damage := (tdGet p.temp_data "injury_damage").getD "",
    description := (tdGet p.temp_data "description").getD "",
    followup := (tdGet p.temp_data "followup").getD "" }

/-- `RegistrationService.complete_comprehensive_ir_creation`: read the draft,
return to `IDLE` (clearing scratch), and hand the draft to the renderer. -/
def complete_comprehensive_ir_creation (p : UserProfile) : UserProfile × IRData :=
  let d := get_comprehensive_ir_data p
  (set_user_state p UserState.IDLE, d)

/-! ## Two-level store for the storage-failure analysis

`RegistrationService` keeps `users_data` in memory and `_save_users` writes it
to disk.  `_update_user_profile` mutates the in-memory profile *first* and then
attempts the save; every read (`_get_user_profile`, `get_user_state`, ...) goes
through the in-memory copy. -/

/-- In-memory profile plus its on-disk copy (for a single user). -/
structure Store where
  memory : UserProfile
  disk : UserProfile
  deriving Repr, DecidableEq

/-- `RegistrationService._update_user_profile` given the already-updated
profile `m`: memory is replaced unconditionally, disk only when the save
succeeds, and the save outcome is returned. -/
def update_user_profile (st : Store) (m : UserProfile) (saveOk : Bool) : Store × Bool :=
  ({ memory := m, disk := if saveOk then m else st.disk }, saveOk)

/-- `RegistrationService.register_user` over the two-level store. -/
def register_user (st : Store) (saveOk : Bool)
    (rank full_name company unit contact_number : String) : Store × Bool :=
  update_user_profile st
    (register_user_mem st.memory rank full_name company unit contact_number) saveOk

/-! ## Message handlers (`handlers/message_handler.py`)

Each `_handle_*` method is embedded as its effect on the user profile (replies
and keyboards are pure outputs with no bearing on the claims).  Where a report
is generated, the handler additionally returns the `IRData` passed to the
renderer.  `saveOk` is the outcome of the `_save_users` call(s) made during the
operation; it is only consulted where the Python code branches on a returned
success flag. -/

/-- `MessageHandler._handle_rank_input`. -/
def handleRankInput (p : UserProfile) (t : String) : UserProfile :=
  if (validate_rank t).1 then
    set_user_state (store_user_temp_data p "rank" (pyStrip (pyUpper t)))
      UserState.AWAITING_NAME
  else p

/-- `MessageHandler._handle_name_input`. -/
def handleNameInput (p : UserProfile) (t : String) : UserProfile :=
  if (validate_name t).1 then
    set_user_state (store_user_temp_data p "full_name" (pyStrip (pyUpper t)))
      UserState.AWAITING_COMPANY
  else p

/-- `MessageHandler._handle_company_input`. -/
def handleCompanyInput (p : UserProfile) (t : String) : UserProfile :=
  if (validate_company t).1 then
    set_user_state (store_user_temp_data p "company" (pyStrip (pyUpper t)))
      UserState.AWAITING_UNIT
  else p

/-- `MessageHandler._handle_unit_input`. -/
def handleUnitInput (p : UserProfile) (t : String) : UserProfile :=
  if (validate_unit t).1 then
    set_user_state (store_user_temp_data p "unit" (pyStrip (pyUpper t)))
      UserState.AWAITING_CONTACT
  else p

/-- Python truthiness of an optional string (`all([...])` over the stored
registration values). -/
def isTruthy : Option String → Bool
  | none => false
  | some s => s != ""

/-- `MessageHandler._handle_contact_input`: on a valid contact number and
complete stored data, `register_user` commits all five fields; the in-memory
effect does not depend on the save outcome (only the reply does). -/
def handleContactInput (p : UserProfile) (t : String) : UserProfile :=
  if (validate_contact_number t).1 then
    let sr := get_user_temp_data p "rank"
    let sn := get_user_temp_data p "full_name"
    let sc := get_user_temp_data p "company"
    let su := get_user_temp_data p "unit"
    if !(isTruthy sr && isTruthy sn && isTruthy sc && isTruthy su) then p
    else register_user_mem p (sr.getD "") (sn.getD "") (sc.getD "") (su.getD "") t
  else p

/-- `MessageHandler._handle_date_time_input`. -/
def handleDateTimeInput (p : UserProfile) (t : String) : UserProfile :=
  let r := validate_date_time t
  if r.1 then
    set_user_state
      (store_user_temp_data (store_user_temp_data p "date_incident" r.2.1)
        "time_incident" r.2.2.1)
      UserState.AWAITING_SERVICEMAN
  else p

/-- `MessageHandler._handle_serviceman_input`. -/
def handleServicemanInput (p : UserProfile) (t : String) : UserProfile :=
  let r := validate_serviceman_details t
  if r.1 then
    set_user_state (store_user_temp_data p "serviceman_details" r.2.1)
      UserState.AWAITING_LOCATION
  else p

/-- `MessageHandler._handle_location_input`. -/
def handleLocationInput (p : UserProfile) (t : String) : UserProfile :=
  if (validate_ir_content t).1 then
    set_user_state (store_user_temp_data p "location" (pyStrip t))
      UserState.AWAITING_INJURY
  else p

/-- `MessageHandler._handle_injury_input`. -/
def handleInjuryInput (p : UserProfile) (t : String) : UserProfile :=
  if (validate_ir_content t).1 then
    set_user_state (store_user_temp_data p "injury_damage" (pyStrip t))
      UserState.AWAITING_DESCRIPTION
  else p

/-- The guard `if ir_type and "FINAL" in ir_type` of
`_handle_description_input` (Python truthiness of the stored label). -/
def irTypeIsFinal : Option String → Bool
  | none => false
  | some s => s != "" && containsFinal s

/-- `MessageHandler._handle_description_input`: store the description, then
either auto-fill the followup and render (final-type label), or move to
`AWAITING_FOLLOWUP`. -/
def handleDescriptionInput (p : UserProfile) (t : String) : UserProfile × Option IRData :=
  if (validate_ir_content t).1 then
    let p1 := store_user_temp_data p "description" (pyStrip t)
    if irTypeIsFinal (get_user_temp_data p1 "ir_type") then
      let p2 := store_user_temp_data p1 "followup" "This serves as a final report"
      let r := complete_comprehensive_ir_creation p2
      (r.1, some r.2)
    else (set_user_state p1 UserState.AWAITING_FOLLOWUP, none)
  else (p, none)

/-- `MessageHandler._handle_followup_input`. -/
def handleFollowupInput (p : UserProfile) (t : String) : UserProfile × Option IRData :=
  if (validate_ir_content t).1 then
    let p1 := store_user_temp_data p "followup" (pyStrip t)
    let r := complete_comprehensive_ir_creation p1
    (r.1, some r.2)
  else (p, none)

/-- `MessageHandler._handle_rank_edit` (the other four edit handlers follow
the same shape with their own validator and field). -/
def handleRankEdit (p : UserProfile) (t : String) (saveOk : Bool) : UserProfile :=
  if (validate_rank t).1 then
    let r := update_single_field p "rank" t saveOk
    if r.2 then set_user_state r.1 UserState.IDLE else r.1
  else p

/-- `MessageHandler._handle_name_edit`. -/
def handleNameEdit (p : UserProfile) (t : String) (saveOk : Bool) : UserProfile :=
  if (validate_name t).1 then
    let r := update_single_field p "full_name" t saveOk
    if r.2 then set_user_state r.1 UserState.IDLE else r.1
  else p

/-- `MessageHandler._handle_company_edit`. -/
def handleCompanyEdit (p : UserProfile) (t : String) (saveOk : Bool) : UserProfile :=
  if (validate_company t).1 then
    let r := update_single_field p "company" t saveOk
    if r.2 then set_user_state r.1 UserState.IDLE else r.1
  else p

/-- `MessageHandler._handle_unit_edit`. -/
def handleUnitEdit (p : UserProfile) (t : String) (saveOk : Bool) : UserProfile :=
  if (validate_unit t).1 then
    let r := update_single_field p "unit" t saveOk
    if r.2 then set_user_state r.1 UserState.IDLE else r.1
  else p

/-- `MessageHandler._handle_contact_edit`. -/
def handleContactEdit (p : UserProfile) (t : String) (saveOk : Bool) : UserProfile :=
  if (validate_contact_number t).1 then
    let r := update_single_field p "contact_number" t saveOk
    if r.2 then set_user_state r.1 UserState.IDLE else r.1
  else p

/-- Result of one dispatched inbound event: the updated profile and, when a
comprehensive report was generated during the event, the draft handed to the
renderer. -/
structure StepResult where
  profile : UserProfile
  rendered : Option IRData
  deriving Repr, DecidableEq

/-- The state dispatch of `MessageHandler.handle_message`, applied to the
already-stripped message text `t`; idle or unknown states leave the profile
unchanged. -/
def dispatchMessage (p : UserProfile) (t : String) (saveOk : Bool) : StepResult :=
  if p.state == UserState.AWAITING_RANK then ⟨handleRankInput p t, none⟩
  else if p.state == UserState.AWAITING_NAME then ⟨handleNameInput p t, none⟩
  else if p.state == UserState.AWAITING_COMPANY then ⟨handleCompanyInput p t, none⟩
  else if p.state == UserState.AWAITING_UNIT then ⟨handleUnitInput p t, none⟩
  else if p.state == UserState.AWAITING_CONTACT then ⟨handleContactInput p t, none⟩
  else if p.state == UserState.AWAITING_DATE_TIME then ⟨handleDateTimeInput p t, none⟩
  else if p.state == UserState.AWAITING_SERVICEMAN then ⟨handleServicemanInput p t, none⟩
  else if p.state == UserState.AWAITING_LOCATION then ⟨handleLocationInput p t, none⟩
  else if p.state == UserState.AWAITING_INJURY then ⟨handleInjuryInput p t, none⟩
  else if p.state == UserState.AWAITING_DESCRIPTION then
    let r := handleDescriptionInput p t
    ⟨r.1, r.2⟩
  else if p.state == UserState.AWAITING_FOLLOWUP then
    let r := handleFollowupInput p t
    ⟨r.1, r.2⟩
  else if p.state == UserState.EDITING_RANK then ⟨handleRankEdit p t saveOk, none⟩
  else if p.state == UserState.EDITING_NAME then ⟨handleNameEdit p t saveOk, none⟩
  else if p.state == UserState.EDITING_COMPANY then ⟨handleCompanyEdit p t saveOk, none⟩
  else if p.state == UserState.EDITING_UNIT then ⟨handleUnitEdit p t saveOk, none⟩
  else if p.state == UserState.EDITING_CONTACT then ⟨handleContactEdit p t saveOk, none⟩
  else ⟨p, none⟩

/-- `MessageHandler.handle_message`: `message_text = update.message.text.strip()`
followed by the state dispatch. -/
def handleMessage (p : UserProfile) (raw : String) (saveOk : Bool) : StepResult :=
  dispatchMessage p (pyStrip raw) saveOk

/-! ## Callback handlers (`handlers/callback_handler.py`) -/

/-- The `ir_type_map` dictionary of `_handle_ir_type_selection`. -/
def ir_type_map (d : String) : Option String :=
  if d == "ir_type_initial" then some "INITIAL"
  else if d == "ir_type_initial_and_final" then some "INITIAL & FINAL"
  else if d == "ir_type_update" then some "UPDATE"
  else if d == "ir_type_update_and_final" then some "UPDATE & FINAL"
  else none

/-- The `nature_type_map` dictionary of `_handle_nature_type_selection`. -/
def nature_type_map (d : String) : Option String :=
  if d == "nature_non_training_related" then some "NON-TRAINING RELATED"
  else if d == "nature_training_related" then some "TRAINING RELATED"
  else none

/-- `CallbackHandler._handle_new_ir`: only the `registered` flag is checked
before starting IR creation; the current state is not consulted. -/
def handleNewIr (p : UserProfile) : UserProfile :=
  if !p.registered then p else start_ir_creation p

/-- `CallbackHandler._handle_ir_type_selection`: store the label and move to
nature selection, with no check of the current state. -/
def handleIrTypeSelection (p : UserProfile) (d : String) : UserProfile :=
  match ir_type_map d with
  | none => p
  | some t =>
    set_user_state (store_user_temp_data p "ir_type" t) UserState.AWAITING_NATURE_TYPE

/-- `CallbackHandler._handle_nature_type_selection`: store the label and move
to date/time input, with no check of the current state. -/
def handleNatureTypeSelection (p : UserProfile) (d : String) : UserProfile :=
  match nature_type_map d with
  | none => p
  | some t =>
    set_user_state (store_user_temp_data p "nature_type" t) UserState.AWAITING_DATE_TIME

/-- The `field_state_map` dictionary of `_handle_edit_field`. -/
def field_state_map (f : String) : Option String :=
  if f == "rank" then some UserState.EDITING_RANK
  else if f == "name" then some UserState.EDITING_NAME
  else if f == "company" then some UserState.EDITING_COMPANY
  else if f == "unit" then some UserState.EDITING_UNIT
  else if f == "contact" then some UserState.EDITING_CONTACT
  else none

/-- `CallbackHandler._handle_edit_field`: unregistered users are turned away
(`get_user_particulars` returns `None`), otherwise a recognized field enters
its editing state. -/
def handleEditField (p : UserProfile) (d : String) : UserProfile :=
  let field := d.replace "edit_" ""
  if !p.registered then p
  else
    match field_state_map field with
    | none => p
    | some st => set_user_state p st

/-- `CallbackHandler.handle_callback`: dispatch on the callback payload alone. -/
def handleCallback (p : UserProfile) (d : String) : StepResult :=
  if d == "new_ir" then ⟨handleNewIr p, none⟩
  else if pyStartsWith d "ir_type_" then ⟨handleIrTypeSelection p d, none⟩
  else if pyStartsWith d "nature_" then ⟨handleNatureTypeSelection p d, none⟩
  else if d == "my_details" then ⟨p, none⟩
  else if pyStartsWith d "edit_" then ⟨handleEditField p d, none⟩
  else if d == "back_to_main" then ⟨set_user_state p UserState.IDLE, none⟩
  else ⟨p, none⟩

/-- `CommandHandler.start_command`: existing registered users return to the
main menu in `IDLE`; everyone else is put into `AWAITING_RANK`. -/
def startCommand (p : UserProfile) : UserProfile :=
  if p.registered then set_user_state p UserState.IDLE
  else set_user_state p UserState.AWAITING_RANK

/-- One inbound event of the system: a text message, an inline-keyboard
callback, or the `/start` command. -/
inductive Event where
  | message (text : String)
  | callback (data : String)
  | start
  deriving Repr, DecidableEq

/-- One complete operation of the dialogue controller on a user's profile. -/
def systemStep (p : UserProfile) (e : Event) (saveOk : Bool) : StepResult :=
  match e with
  | .message t => handleMessage p t saveOk
  | .callback d => handleCallback p d
  | .start => ⟨startCommand p, none⟩

/-! ## Basic lemmas about the string primitives -/

lemma sepChar_of_isDigitC {c : Char} (h : isDigitC c = true) : sepChar c = false := by
  simp only [isDigitC, Bool.and_eq_true, decide_eq_true_eq] at h
  simp only [sepChar, isSpace, Bool.or_eq_false_iff, beq_eq_false_iff_ne, ne_eq]
  omega

/-- A value accepted by the final contact pattern `^[89]\d{7}$` is left
unchanged by the separator-stripping normalization. -/
lemma cleanContact_of_isLocalContact {s : String} (h : isLocalContact s = true) :
    cleanContact s = s := by
  rcases s with ⟨l⟩
  rcases l with _ | ⟨c, rest⟩
  · simp [isLocalContact, String.toList] at h
  · simp only [isLocalContact, String.toList, Bool.and_eq_true, Bool.or_eq_true,
      beq_iff_eq] at h
    obtain ⟨⟨hc, -⟩, hall⟩ := h
    have hkeep : (c :: rest).filter (fun ch => !sepChar ch) = c :: rest := by
      apply List.filter_eq_self.mpr
      intro a ha
      rcases List.mem_cons.mp ha with rfl | ha
      · rcases hc with rfl | rfl <;> decide
      · simp only [Bool.not_eq_eq_eq_not, Bool.not_true]
        exact sepChar_of_isDigitC (List.all_eq_true.mp hall _ ha)
    show cleanContact ⟨c :: rest⟩ = ⟨c :: rest⟩
    unfold cleanContact
    simp only [String.toList, hkeep]
    have hstart : startsWithL (c :: rest) ['6', '5'] = false := by
      rcases hc with rfl | rfl
      · have h86 : (('8' : Char) == '6') = false := by decide
        simp [startsWithL, h86]
      · have h96 : (('9' : Char) == '6') = false := by decide
        simp [startsWithL, h96]
    simp [hstart]

/-! ## Basic lemmas about the profile operations -/

lemma set_user_state_state (p : UserProfile) (s : String) :
    (set_user_state p s).state = s := by
  unfold set_user_state; split <;> rfl

lemma set_user_state_registered (p : UserProfile) (s : String) :
    (set_user_state p s).registered = p.registered := by
  unfold set_user_state; split <;> rfl

lemma set_user_state_rank (p : UserProfile) (s : String) :
    (set_user_state p s).rank = p.rank := by
  unfold set_user_state; split <;> rfl

lemma set_user_state_full_name (p : UserProfile) (s : String) :
    (set_user_state p s).full_name = p.full_name := by
  unfold set_user_state; split <;> rfl

lemma set_user_state_company (p : UserProfile) (s : String) :
    (set_user_state p s).company = p.company := by
  unfold set_user_state; split <;> rfl

lemma set_user_state_unit (p : UserProfile) (s : String) :
    (set_user_state p s).unit = p.unit := by
  unfold set_user_state; split <;> rfl

lemma set_user_state_contact_number (p : UserProfile) (s : String) :
    (set_user_state p s).contact_number = p.contact_number := by
  unfold set_user_state; split <;> rfl

lemma set_user_state_temp_of_ne (p : UserProfile) {s : String}
    (h : s ≠ UserState.IDLE) : (set_user_state p s).temp_data = p.temp_data := by
  unfold set_user_state
  split
  · next hc => exact absurd (by exact beq_iff_eq.mp hc) h
  · rfl

lemma start_ir_creation_state (p : UserProfile) :
    (start_ir_creation p).state = UserState.AWAITING_IR_TYPE := by
  unfold start_ir_creation
  simp [set_user_state_state]

/-- The scratch-emptiness invariant of the spec:
`current_state == IDLE` implies the scratch mapping is empty. -/
def idleInv (p : UserProfile) : Prop :=
  p.state = UserState.IDLE → p.temp_data = []

lemma idleInv_set_user_state (p : UserProfile) (s : String) :
    idleInv (set_user_state p s) := by
  unfold idleInv set_user_state
  split
  · intro _; rfl
  · next hc =>
    intro h
    simp only at h
    rw [h] at hc
    simp at hc

lemma idleInv_start_ir_creation (p : UserProfile) :
    idleInv (start_ir_creation p) := by
  intro h
  rw [start_ir_creation_state] at h
  exact absurd h (by decide)

/-! ## C5 : contact-number normalization -/

/-- **C5.** Contact-number normalization (strip whitespace, hyphen, plus and
parentheses; then drop a leading `65` when the stripped result is 10 digits) is
idempotent: applied to an already-normalized valid 8-digit number (the
`^[89]\d{7}$` shape) it returns the number unchanged; and `+65 9123 4567`,
`91234567` and `9123-4567` all normalize to `91234567` and are accepted by
`validate_contact_number`. -/
theorem claim_C5_contact_normalization :
    (∀ s : String, isLocalContact s = true → cleanContact s = s)
    ∧ cleanContact "+65 9123 4567" = "91234567"
    ∧ cleanContact "91234567" = "91234567"
    ∧ cleanContact "9123-4567" = "91234567"
    ∧ (validate_contact_number "+65 9123 4567").1 = true
    ∧ (validate_contact_number "91234567").1 = true
    ∧ (validate_contact_number "9123-4567").1 = true := by
  refine ⟨fun s h => cleanContact_of_isLocalContact h, ?_, ?_, ?_, ?_, ?_, ?_⟩ <;> decide

/-- Witness for C5: the idempotence statement applied at the concrete
already-normalized number `91234567`. -/
theorem claim_C5_witness :
    isLocalContact "91234567" = true ∧ cleanContact "91234567" = "91234567" :=
  ⟨by decide, claim_C5_contact_normalization.1 "91234567" (by decide)⟩

/-! ## C1 : storage failure during a transition -/

/-- A profile mid-registration, awaiting the contact number with the first
four fields collected in scratch. -/
def contactStageProfile : UserProfile :=
  { rank := none, full_name := none, company := none, unit := none,
    contact_number := none, registered := false,
    state := UserState.AWAITING_CONTACT,
    temp_data := [("rank", "PTE"), ("full_name", "TAN AH KOW"),
                  ("company", "ALPHA"), ("unit", "1 SIR")] }

/-- The store after the registration transition runs against a failing
persistence write. -/
def c1FailedStore : Store :=
  (register_user ⟨contactStageProfile, contactStageProfile⟩ false
    "PTE" "TAN AH KOW" "ALPHA" "1 SIR" "91234567").1

/-- **C1, counterexample.** When the persistence write fails, the registration
transition does *not* fully fail: `register_user` reports failure, yet the
user's in-memory record — the record every subsequent read consults — has its
`registered` flag flipped, its fields written and its state advanced to
`IDLE`; retrying the same contact input afterwards is a no-op because the
dialogue is no longer awaiting a contact number. -/
theorem claim_C1_counterexample :
    (register_user ⟨contactStageProfile, contactStageProfile⟩ false
        "PTE" "TAN AH KOW" "ALPHA" "1 SIR" "91234567").2 = false
    ∧ contactStageProfile.registered = false
    ∧ contactStageProfile.state = UserState.AWAITING_CONTACT
    ∧ c1FailedStore.memory.registered = true
    ∧ c1FailedStore.memory.state = UserState.IDLE
    ∧ c1FailedStore.memory.contact_number = some "91234567"
    ∧ (handleMessage c1FailedStore.memory "91234567" true).profile
        = c1FailedStore.memory := by
  decide

/-- **C1, amended.** On a transition whose persistence write fails, only the
on-disk copy is left unchanged: `register_user` returns the save outcome, but
the in-memory record is unconditionally replaced by the fully-updated profile
(all five fields, `registered = true`, state `IDLE`, scratch cleared) *before*
the save is attempted, so a partial-success state is observable whenever the
write fails. -/
theorem claim_C1_storage_failure_partial_commit (st : Store) (saveOk : Bool)
    (rank full_name company unit contact : String) :
    (register_user st saveOk rank full_name company unit contact).2 = saveOk
    ∧ (register_user st saveOk rank full_name company unit contact).1.memory
        = register_user_mem st.memory rank full_name company unit contact
    ∧ (register_user st saveOk rank full_name company unit contact).1.memory.registered = true
    ∧ (register_user st saveOk rank full_name company unit contact).1.memory.state
        = UserState.IDLE
    ∧ (register_user st saveOk rank full_name company unit contact).1.disk
        = (if saveOk then register_user_mem st.memory rank full_name company unit contact
           else st.disk) :=
  ⟨rfl, rfl, rfl, rfl, rfl⟩

/-! ## C2 : entering the report flow -/

/-- A fully registered profile sitting at the main menu (`IDLE`). -/
def registeredIdleProfile : UserProfile :=
  { rank := some "PTE", full_name := some "TAN AH KOW", company := some "ALPHA",
    unit := some "1 SIR", contact_number := some "91234567", registered := true,
    state := UserState.IDLE, temp_data := [] }

/-- A registered profile currently editing its rank (a reachable non-`IDLE`
state). -/
def c2EditingProfile : UserProfile :=
  { registeredIdleProfile with state := UserState.EDITING_RANK }

/-- **C2, counterexample.** A `new_ir` request is *not* restricted to `IDLE`:
for a registered user in the (reachable) `EDITING_RANK` state the request is
not rejected — the report flow starts and the state moves to
`AWAITING_IR_TYPE`.  Only the `registered` flag is checked. -/
theorem claim_C2_counterexample :
    c2EditingProfile.registered = true
    ∧ c2EditingProfile.state ≠ UserState.IDLE
    ∧ (handleCallback c2EditingProfile "new_ir").profile.state
        = UserState.AWAITING_IR_TYPE := by
  decide

/-- **C2, amended.** A `new_ir` request starts the report flow exactly when the
user's record has `registered = true`, regardless of the current state; when
the user is unregistered the request is rejected and no part of the record is
mutated. -/
theorem claim_C2_new_ir_guard (p : UserProfile) :
    (p.registered = false →
      (handleCallback p "new_ir").profile = p
      ∧ (handleCallback p "new_ir").rendered = none)
    ∧ (p.registered = true →
      (handleCallback p "new_ir").profile = start_ir_creation p
      ∧ (handleCallback p "new_ir").profile.state = UserState.AWAITING_IR_TYPE) := by
  constructor
  · intro h
    constructor <;> simp [handleCallback, handleNewIr, h]
  · intro h
    constructor <;> simp [handleCallback, handleNewIr, h, start_ir_creation_state]

/-- Witness for C2: the two branches of the guard at concrete profiles. -/
theorem claim_C2_witness :
    (defaultUserProfile.registered = false
      ∧ (handleCallback defaultUserProfile "new_ir").profile = defaultUserProfile)
    ∧ (registeredIdleProfile.registered = true
      ∧ (handleCallback registeredIdleProfile "new_ir").profile.state
          = UserState.AWAITING_IR_TYPE) :=
  ⟨⟨rfl, ((claim_C2_new_ir_guard defaultUserProfile).1 rfl).1⟩,
   ⟨rfl, ((claim_C2_new_ir_guard registeredIdleProfile).2 rfl).2⟩⟩

/-! ## Lemmas about the scratch dictionary -/

lemma tdGet_tdSet_self (td : List (String × String)) (k v : String) :
    tdGet (tdSet td k v) k = some v := by
  induction td with
  | nil => simp [tdSet, tdGet]
  | cons hd tl ih =>
    obtain ⟨k1, v1⟩ := hd
    by_cases hk : (k1 == k) = true
    · simp only [tdSet, hk, if_true, tdGet, beq_self_eq_true]
    · have hk' : (k1 == k) = false := by simpa using hk
      simp only [tdSet, hk', Bool.false_eq_true, if_false, tdGet]
      exact ih

lemma tdGet_tdSet_ne (td : List (String × String)) {k k' : String} (v : String)
    (h : k ≠ k') : tdGet (tdSet td k v) k' = tdGet td k' := by
  induction td with
  | nil => simp [tdSet, tdGet, h]
  | cons hd tl ih =>
    obtain ⟨k1, v1⟩ := hd
    by_cases hk : (k1 == k) = true
    · have hk1 : k1 = k := beq_iff_eq.mp hk
      subst hk1
      have hkk' : (k1 == k') = false := by simpa using h
      simp only [tdSet, beq_self_eq_true, if_true, tdGet, hkk', Bool.false_eq_true,
        if_false]
    · have hk' : (k1 == k) = false := by simpa using hk
      simp only [tdSet, hk', Bool.false_eq_true, if_false, tdGet]
      by_cases hk1' : (k1 == k') = true
      · simp only [hk1', if_true]
      · have hk1'' : (k1 == k') = false := by simpa using hk1'
        simp only [hk1'', Bool.false_eq_true, if_false]
        exact ih

/-! ## C10 : menu-selection dispatch ignores the current state -/

lemma handleCallback_eq_irtype {d t : String} (h : ir_type_map d = some t)
    (p : UserProfile) : handleCallback p d = ⟨handleIrTypeSelection p d, none⟩ := by
  unfold ir_type_map at h
  split at h
  · next hc => rw [beq_iff_eq.mp hc]; rfl
  · split at h
    · next hc => rw [beq_iff_eq.mp hc]; rfl
    · split at h
      · next hc => rw [beq_iff_eq.mp hc]; rfl
      · split at h
        · next hc => rw [beq_iff_eq.mp hc]; rfl
        · exact absurd h (by simp)

lemma handleCallback_eq_nature {d t : String} (h : nature_type_map d = some t)
    (p : UserProfile) : handleCallback p d = ⟨handleNatureTypeSelection p d, none⟩ := by
  unfold nature_type_map at h
  split at h
  · next hc => rw [beq_iff_eq.mp hc]; rfl
  · split at h
    · next hc => rw [beq_iff_eq.mp hc]; rfl
    · exact absurd h (by simp)

/-- **C10.** Menu-selection callbacks are dispatched on the payload alone:
from *any* current state, a recognized IR-type selection stores the label
under `ir_type` and moves to `AWAITING_NATURE_TYPE`, and a recognized
nature-type selection stores the label under `nature_type` and moves to
`AWAITING_DATE_TIME` — neither `_handle_ir_type_selection` nor
`_handle_nature_type_selection` consults the user's current state. -/
theorem claim_C10_menu_dispatch (p : UserProfile) (d t : String) :
    (ir_type_map d = some t →
      (handleCallback p d).profile.state = UserState.AWAITING_NATURE_TYPE
      ∧ tdGet (handleCallback p d).profile.temp_data "ir_type" = some t)
    ∧ (nature_type_map d = some t →
      (handleCallback p d).profile.state = UserState.AWAITING_DATE_TIME
      ∧ tdGet (handleCallback p d).profile.temp_data "nature_type" = some t) := by
  constructor
  · intro h
    rw [handleCallback_eq_irtype h]
    simp only [handleIrTypeSelection, h]
    refine ⟨set_user_state_state _ _, ?_⟩
    rw [set_user_state_temp_of_ne _ (by decide)]
    exact tdGet_tdSet_self _ _ _
  · intro h
    rw [handleCallback_eq_nature h]
    simp only [handleNatureTypeSelection, h]
    refine ⟨set_user_state_state _ _, ?_⟩
    rw [set_user_state_temp_of_ne _ (by decide)]
    exact tdGet_tdSet_self _ _ _

/-- Witness for C10: both selection kinds fired from the `IDLE` state of a
fresh profile (a state in which no selection prompt is pending). -/
theorem claim_C10_witness :
    (ir_type_map "ir_type_update" = some "UPDATE"
      ∧ (handleCallback defaultUserProfile "ir_type_update").profile.state
          = UserState.AWAITING_NATURE_TYPE
      ∧ tdGet (handleCallback defaultUserProfile "ir_type_update").profile.temp_data
          "ir_type" = some "UPDATE")
    ∧ (nature_type_map "nature_training_related" = some "TRAINING RELATED"
      ∧ (handleCallback defaultUserProfile "nature_training_related").profile.state
          = UserState.AWAITING_DATE_TIME
      ∧ tdGet (handleCallback defaultUserProfile "nature_training_related").profile.temp_data
          "nature_type" = some "TRAINING RELATED") :=
  ⟨⟨rfl, (claim_C10_menu_dispatch defaultUserProfile "ir_type_update" "UPDATE").1 rfl⟩,
   ⟨rfl, (claim_C10_menu_dispatch defaultUserProfile "nature_training_related"
      "TRAINING RELATED").2 rfl⟩⟩

/-! ## C8 : editing a single field -/

/-- **C8.** For a registered user in any of the five `EDITING_<field>` states,
a successful edit (input passing that field's validator, persistence write
succeeding) updates exactly that one field of the record — to the normalized
input — returns the state to `IDLE`, and leaves the other four particulars
and the `registered` flag unchanged. -/
theorem claim_C8_single_field_edit (p : UserProfile) (raw : String)
    (hreg : p.registered = true) :
    (p.state = UserState.EDITING_RANK → (validate_rank (pyStrip raw)).1 = true →
      (handleMessage p raw true).profile.rank = some (pyStrip (pyUpper (pyStrip raw)))
      ∧ (handleMessage p raw true).profile.state = UserState.IDLE
      ∧ (handleMessage p raw true).profile.full_name = p.full_name
      ∧ (handleMessage p raw true).profile.company = p.company
      ∧ (handleMessage p raw true).profile.unit = p.unit
      ∧ (handleMessage p raw true).profile.contact_number = p.contact_number
      ∧ (handleMessage p raw true).profile.registered = true)
    ∧ (p.state = UserState.EDITING_NAME → (validate_name (pyStrip raw)).1 = true →
      (handleMessage p raw true).profile.full_name = some (pyStrip (pyUpper (pyStrip raw)))
      ∧ (handleMessage p raw true).profile.state = UserState.IDLE
      ∧ (handleMessage p raw true).profile.rank = p.rank
      ∧ (handleMessage p raw true).profile.company = p.company
      ∧ (handleMessage p raw true).profile.unit = p.unit
      ∧ (handleMessage p raw true).profile.contact_number = p.contact_number
      ∧ (handleMessage p raw true).profile.registered = true)
    ∧ (p.state = UserState.EDITING_COMPANY → (validate_company (pyStrip raw)).1 = true →
      (handleMessage p raw true).profile.company = some (pyStrip (pyUpper (pyStrip raw)))
      ∧ (handleMessage p raw true).profile.state = UserState.IDLE
      ∧ (handleMessage p raw true).profile.rank = p.rank
      ∧ (handleMessage p raw true).profile.full_name = p.full_name
      ∧ (handleMessage p raw true).profile.unit = p.unit
      ∧ (handleMessage p raw true).profile.contact_number = p.contact_number
      ∧ (handleMessage p raw true).profile.registered = true)
    ∧ (p.state = UserState.EDITING_UNIT → (validate_unit (pyStrip raw)).1 = true →
      (handleMessage p raw true).profile.unit = some (pyStrip (pyUpper (pyStrip raw)))
      ∧ (handleMessage p raw true).profile.state = UserState.IDLE
      ∧ (handleMessage p raw true).profile.rank = p.rank
      ∧ (handleMessage p raw true).profile.full_name = p.full_name
      ∧ (handleMessage p raw true).profile.company = p.company
      ∧ (handleMessage p raw true).profile.contact_number = p.contact_number
      ∧ (handleMessage p raw true).profile.registered = true)
    ∧ (p.state = UserState.EDITING_CONTACT →
        (validate_contact_number (pyStrip raw)).1 = true →
      (handleMessage p raw true).profile.contact_number
          = some (cleanContact (pyStrip raw))
      ∧ (handleMessage p raw true).profile.state = UserState.IDLE
      ∧ (handleMessage p raw true).profile.rank = p.rank
      ∧ (handleMessage p raw true).profile.full_name = p.full_name
      ∧ (handleMessage p raw true).profile.company = p.company
      ∧ (handleMessage p raw true).profile.unit = p.unit
      ∧ (handleMessage p raw true).profile.registered = true) := by
  refine ⟨?_, ?_, ?_, ?_, ?_⟩
  · intro hst hval
    have hdisp : handleMessage p raw true = ⟨handleRankEdit p (pyStrip raw) true, none⟩ := by
      unfold handleMessage dispatchMessage
      rw [hst]
      rfl
    rw [hdisp]
    unfold handleRankEdit
    rw [hval]
    unfold update_single_field
    rw [hreg]
    simp only [Bool.not_true, Bool.false_eq_true, if_false, if_true]
    have hcn : (("rank" : String) == "contact_number") = false := by decide
    have hf1 : (("rank" : String) == "rank") = true := by decide
    simp only [hcn, Bool.false_eq_true, if_false, hf1, if_true]
    refine ⟨?_, ?_, ?_, ?_, ?_, ?_, ?_⟩
    · rw [set_user_state_rank]
    · rw [set_user_state_state]
    · rw [set_user_state_full_name]
    · rw [set_user_state_company]
    · rw [set_user_state_unit]
    · rw [set_user_state_contact_number]
    · rw [set_user_state_registered]
  · intro hst hval
    have hdisp : handleMessage p raw true = ⟨handleNameEdit p (pyStrip raw) true, none⟩ := by
      unfold handleMessage dispatchMessage
      rw [hst]
      rfl
    rw [hdisp]
    unfold handleNameEdit
    rw [hval]
    unfold update_single_field
    rw [hreg]
    simp only [Bool.not_true, Bool.false_eq_true, if_false, if_true]
    have hcn : (("full_name" : String) == "contact_number") = false := by decide
    have hf1 : (("full_name" : String) == "rank") = false := by decide
    have hf2 : (("full_name" : String) == "full_name") = true := by decide
    simp only [hcn, hf1, Bool.false_eq_true, if_false, hf2, if_true]
    refine ⟨?_, ?_, ?_, ?_, ?_, ?_, ?_⟩
    · rw [set_user_state_full_name]
    · rw [set_user_state_state]
    · rw [set_user_state_rank]
    · rw [set_user_state_company]
    · rw [set_user_state_unit]
    · rw [set_user_state_contact_number]
    · rw [set_user_state_registered]
  · intro hst hval
    have hdisp : handleMessage p raw true = ⟨handleCompanyEdit p (pyStrip raw) true, none⟩ := by
      unfold handleMessage dispatchMessage
      rw [hst]
      rfl
    rw [hdisp]
    unfold handleCompanyEdit
    rw [hval]
    unfold update_single_field
    rw [hreg]
    simp only [Bool.not_true, Bool.false_eq_true, if_false, if_true]
    have hcn : (("company" : String) == "contact_number") = false := by decide
    have hf1 : (("company" : String) == "rank") = false := by decide
    have hf2 : (("company" : String) == "full_name") = false := by decide
    have hf3 : (("company" : String) == "company") = true := by decide
    simp only [hcn, hf1, hf2, Bool.false_eq_true, if_false, hf3, if_true]
    refine ⟨?_, ?_, ?_, ?_, ?_, ?_, ?_⟩
    · rw [set_user_state_company]
    · rw [set_user_state_state]
    · rw [set_user_state_rank]
    · rw [set_user_state_full_name]
    · rw [set_user_state_unit]
    · rw [set_user_state_contact_number]
    · rw [set_user_state_registered]
  · intro hst hval
    have hdisp : handleMessage p raw true = ⟨handleUnitEdit p (pyStrip raw) true, none⟩ := by
      unfold handleMessage dispatchMessage
      rw [hst]
      rfl
    rw [hdisp]
    unfold handleUnitEdit
    rw [hval]
    unfold update_single_field
    rw [hreg]
    simp only [Bool.not_true, Bool.false_eq_true, if_false, if_true]
    have hcn : (("unit" : String) == "contact_number") = false := by decide
    have hf1 : (("unit" : String) == "rank") = false := by decide
    have hf2 : (("unit" : String) == "full_name") = false := by decide
    have hf3 : (("unit" : String) == "company") = false := by decide
    have hf4 : (("unit" : String) == "unit") = true := by decide
    simp only [hcn, hf1, hf2, hf3, Bool.false_eq_true, if_false, hf4, if_true]
    refine ⟨?_, ?_, ?_, ?_, ?_, ?_, ?_⟩
    · rw [set_user_state_unit]
    · rw [set_user_state_state]
    · rw [set_user_state_rank]
    · rw [set_user_state_full_name]
    · rw [set_user_state_company]
    · rw [set_user_state_contact_number]
    · rw [set_user_state_registered]
  · intro hst hval
    have hdisp : handleMessage p raw true = ⟨handleContactEdit p (pyStrip raw) true, none⟩ := by
      unfold handleMessage dispatchMessage
      rw [hst]
      rfl
    rw [hdisp]
    unfold handleContactEdit
    rw [hval]
    unfold update_single_field
    rw [hreg]
    simp only [Bool.not_true, Bool.false_eq_true, if_false, if_true]
    have hcn : (("contact_number" : String) == "contact_number") = true := by decide
    simp only [hcn, if_true]
    refine ⟨?_, ?_, ?_, ?_, ?_, ?_, ?_⟩
    · rw [set_user_state_contact_number]
    · rw [set_user_state_state]
    · rw [set_user_state_rank]
    · rw [set_user_state_full_name]
    · rw [set_user_state_company]
    · rw [set_user_state_unit]
    · rw [set_user_state_registered]

/-- Registered profiles sitting in each of the remaining editing states. -/
def c8NameProfile : UserProfile :=
  { registeredIdleProfile with state := UserState.EDITING_NAME }

/-- Registered profile in `EDITING_COMPANY`. -/
def c8CompanyProfile : UserProfile :=
  { registeredIdleProfile with state := UserState.EDITING_COMPANY }

/-- Registered profile in `EDITING_UNIT`. -/
def c8UnitProfile : UserProfile :=
  { registeredIdleProfile with state := UserState.EDITING_UNIT }

/-- Registered profile in `EDITING_CONTACT`. -/
def c8ContactProfile : UserProfile :=
  { registeredIdleProfile with state := UserState.EDITING_CONTACT }

/-- Witness for C8: all five editing states exercised on registered profiles
with concrete valid inputs, checking the edited field, the return to `IDLE`,
and one frame fact each. -/
theorem claim_C8_witness :
    ((handleMessage c2EditingProfile " cpl " true).profile.rank = some "CPL"
      ∧ (handleMessage c2EditingProfile " cpl " true).profile.state = UserState.IDLE
      ∧ (handleMessage c2EditingProfile " cpl " true).profile.full_name
          = c2EditingProfile.full_name)
    ∧ ((handleMessage c8NameProfile "Lim Bo Seng" true).profile.full_name
          = some "LIM BO SENG"
      ∧ (handleMessage c8NameProfile "Lim Bo Seng" true).profile.state = UserState.IDLE
      ∧ (handleMessage c8NameProfile "Lim Bo Seng" true).profile.rank = c8NameProfile.rank)
    ∧ ((handleMessage c8CompanyProfile "Bravo" true).profile.company = some "BRAVO"
      ∧ (handleMessage c8CompanyProfile "Bravo" true).profile.state = UserState.IDLE
      ∧ (handleMessage c8CompanyProfile "Bravo" true).profile.unit = c8CompanyProfile.unit)
    ∧ ((handleMessage c8UnitProfile "2 SIR" true).profile.unit = some "2 SIR"
      ∧ (handleMessage c8UnitProfile "2 SIR" true).profile.state = UserState.IDLE
      ∧ (handleMessage c8UnitProfile "2 SIR" true).profile.company
          = c8UnitProfile.company)
    ∧ ((handleMessage c8ContactProfile "+65 8765 4321" true).profile.contact_number
          = some "87654321"
      ∧ (handleMessage c8ContactProfile "+65 8765 4321" true).profile.state
          = UserState.IDLE
      ∧ (handleMessage c8ContactProfile "+65 8765 4321" true).profile.registered
          = true) := by
  refine ⟨?_, ?_, ?_, ?_, ?_⟩
  · have h := (claim_C8_single_field_edit c2EditingProfile " cpl " rfl).1 rfl (by decide)
    exact ⟨by rw [h.1]; decide, h.2.1, h.2.2.1⟩
  · have h := (claim_C8_single_field_edit c8NameProfile "Lim Bo Seng" rfl).2.1 rfl (by decide)
    exact ⟨by rw [h.1]; decide, h.2.1, h.2.2.1⟩
  · have h := (claim_C8_single_field_edit c8CompanyProfile "Bravo" rfl).2.2.1 rfl (by decide)
    exact ⟨by rw [h.1]; decide, h.2.1, h.2.2.2.2.1⟩
  · have h := (claim_C8_single_field_edit c8UnitProfile "2 SIR" rfl).2.2.2.1 rfl (by decide)
    exact ⟨by rw [h.1]; decide, h.2.1, h.2.2.2.2.1⟩
  · have h := (claim_C8_single_field_edit c8ContactProfile "+65 8765 4321" rfl).2.2.2.2
      rfl (by decide)
    exact ⟨by rw [h.1]; decide, h.2.1, h.2.2.2.2.2.2⟩

/-! ## C9 : the `IDLE ⇒ empty scratch` invariant -/

lemma idleInv_register_user_mem (p : UserProfile) (r n c u ct : String) :
    idleInv (register_user_mem p r n c u ct) := fun _ => rfl

lemma update_single_field_state (p : UserProfile) (f v : String) (b : Bool) :
    (update_single_field p f v b).1.state = p.state := by
  unfold update_single_field
  repeat' split
  all_goals rfl

lemma update_single_field_temp (p : UserProfile) (f v : String) (b : Bool) :
    (update_single_field p f v b).1.temp_data = p.temp_data := by
  unfold update_single_field
  repeat' split
  all_goals rfl

lemma idleInv_update_single_field (p : UserProfile) (f v : String) (b : Bool)
    (h : idleInv p) : idleInv (update_single_field p f v b).1 := by
  intro hs
  rw [update_single_field_temp]
  rw [update_single_field_state] at hs
  exact h hs

lemma idleInv_handleRankInput (p : UserProfile) (t : String) (h : idleInv p) :
    idleInv (handleRankInput p t) := by
  unfold handleRankInput; split
  · exact idleInv_set_user_state _ _
  · exact h

lemma idleInv_handleNameInput (p : UserProfile) (t : String) (h : idleInv p) :
    idleInv (handleNameInput p t) := by
  unfold handleNameInput; split
  · exact idleInv_set_user_state _ _
  · exact h

lemma idleInv_handleCompanyInput (p : UserProfile) (t : String) (h : idleInv p) :
    idleInv (handleCompanyInput p t) := by
  unfold handleCompanyInput; split
  · exact idleInv_set_user_state _ _
  · exact h

lemma idleInv_handleUnitInput (p : UserProfile) (t : String) (h : idleInv p) :
    idleInv (handleUnitInput p t) := by
  unfold handleUnitInput; split
  · exact idleInv_set_user_state _ _
  · exact h

lemma idleInv_handleContactInput (p : UserProfile) (t : String) (h : idleInv p) :
    idleInv (handleContactInput p t) := by
  unfold handleContactInput
  dsimp only
  repeat' split
  all_goals first
    | exact h
    | exact idleInv_register_user_mem _ _ _ _ _ _

lemma idleInv_handleDateTimeInput (p : UserProfile) (t : String) (h : idleInv p) :
    idleInv (handleDateTimeInput p t) := by
  unfold handleDateTimeInput
  dsimp only
  split
  · exact idleInv_set_user_state _ _
  · exact h

lemma idleInv_handleServicemanInput (p : UserProfile) (t : String) (h : idleInv p) :
    idleInv (handleServicemanInput p t) := by
  unfold handleServicemanInput
  dsimp only
  split
  · exact idleInv_set_user_state _ _
  · exact h

lemma idleInv_handleLocationInput (p : UserProfile) (t : String) (h : idleInv p) :
    idleInv (handleLocationInput p t) := by
  unfold handleLocationInput; split
  · exact idleInv_set_user_state _ _
  · exact h

lemma idleInv_handleInjuryInput (p : UserProfile) (t : String) (h : idleInv p) :
    idleInv (handleInjuryInput p t) := by
  unfold handleInjuryInput; split
  · exact idleInv_set_user_state _ _
  · exact h

lemma idleInv_handleDescriptionInput (p : UserProfile) (t : String) (h : idleInv p) :
    idleInv (handleDescriptionInput p t).1 := by
  unfold handleDescriptionInput complete_comprehensive_ir_creation
  dsimp only
  repeat' split
  all_goals first
    | exact h
    | exact idleInv_set_user_state _ _

lemma idleInv_handleFollowupInput (p : UserProfile) (t : String) (h : idleInv p) :
    idleInv (handleFollowupInput p t).1 := by
  unfold handleFollowupInput complete_comprehensive_ir_creation
  dsimp only
  repeat' split
  all_goals first
    | exact h
    | exact idleInv_set_user_state _ _

lemma idleInv_handleRankEdit (p : UserProfile) (t : String) (b : Bool)
    (h : idleInv p) : idleInv (handleRankEdit p t b) := by
  unfold handleRankEdit
  dsimp only
  repeat' split
  all_goals first
    | exact h
    | exact idleInv_set_user_state _ _
    | exact idleInv_update_single_field _ _ _ _ h

lemma idleInv_handleNameEdit (p : UserProfile) (t : String) (b : Bool)
    (h : idleInv p) : idleInv (handleNameEdit p t b) := by
  unfold handleNameEdit
  dsimp only
  repeat' split
  all_goals first
    | exact h
    | exact idleInv_set_user_state _ _
    | exact idleInv_update_single_field _ _ _ _ h

lemma idleInv_handleCompanyEdit (p : UserProfile) (t : String) (b : Bool)
    (h : idleInv p) : idleInv (handleCompanyEdit p t b) := by
  unfold handleCompanyEdit
  dsimp only
  repeat' split
  all_goals first
    | exact h
    | exact idleInv_set_user_state _ _
    | exact idleInv_update_single_field _ _ _ _ h

lemma idleInv_handleUnitEdit (p : UserProfile) (t : String) (b : Bool)
    (h : idleInv p) : idleInv (handleUnitEdit p t b) := by
  unfold handleUnitEdit
  dsimp only
  repeat' split
  all_goals first
    | exact h
    | exact idleInv_set_user_state _ _
    | exact idleInv_update_single_field _ _ _ _ h

lemma idleInv_handleContactEdit (p : UserProfile) (t : String) (b : Bool)
    (h : idleInv p) : idleInv (handleContactEdit p t b) := by
  unfold handleContactEdit
  dsimp only
  repeat' split
  all_goals first
    | exact h
    | exact idleInv_set_user_state _ _
    | exact idleInv_update_single_field _ _ _ _ h

lemma idleInv_dispatchMessage (p : UserProfile) (t : String) (b : Bool)
    (h : idleInv p) : idleInv (dispatchMessage p t b).profile := by
  unfold dispatchMessage
  by_cases h1 : (p.state == UserState.AWAITING_RANK) = true
  · rw [if_pos h1]; exact idleInv_handleRankInput _ _ h
  rw [if_neg h1]
  by_cases h2 : (p.state == UserState.AWAITING_NAME) = true
  · rw [if_pos h2]; exact idleInv_handleNameInput _ _ h
  rw [if_neg h2]
  by_cases h3 : (p.state == UserState.AWAITING_COMPANY) = true
  · rw [if_pos h3]; exact idleInv_handleCompanyInput _ _ h
  rw [if_neg h3]
  by_cases h4 : (p.state == UserState.AWAITING_UNIT) = true
  · rw [if_pos h4]; exact idleInv_handleUnitInput _ _ h
  rw [if_neg h4]
  by_cases h5 : (p.state == UserState.AWAITING_CONTACT) = true
  · rw [if_pos h5]; exact idleInv_handleContactInput _ _ h
  rw [if_neg h5]
  by_cases h6 : (p.state == UserState.AWAITING_DATE_TIME) = true
  · rw [if_pos h6]; exact idleInv_handleDateTimeInput _ _ h
  rw [if_neg h6]
  by_cases h7 : (p.state == UserState.AWAITING_SERVICEMAN) = true
  · rw [if_pos h7]; exact idleInv_handleServicemanInput _ _ h
  rw [if_neg h7]
  by_cases h8 : (p.state == UserState.AWAITING_LOCATION) = true
  · rw [if_pos h8]; exact idleInv_handleLocationInput _ _ h
  rw [if_neg h8]
  by_cases h9 : (p.state == UserState.AWAITING_INJURY) = true
  · rw [if_pos h9]; exact idleInv_handleInjuryInput _ _ h
  rw [if_neg h9]
  by_cases h10 : (p.state == UserState.AWAITING_DESCRIPTION) = true
  · rw [if_pos h10]; exact idleInv_handleDescriptionInput _ _ h
  rw [if_neg h10]
  by_cases h11 : (p.state == UserState.AWAITING_FOLLOWUP) = true
  · rw [if_pos h11]; exact idleInv_handleFollowupInput _ _ h
  rw [if_neg h11]
  by_cases h12 : (p.state == UserState.EDITING_RANK) = true
  · rw [if_pos h12]; exact idleInv_handleRankEdit _ _ _ h
  rw [if_neg h12]
  by_cases h13 : (p.state == UserState.EDITING_NAME) = true
  · rw [if_pos h13]; exact idleInv_handleNameEdit _ _ _ h
  rw [if_neg h13]
  by_cases h14 : (p.state == UserState.EDITING_COMPANY) = true
  · rw [if_pos h14]; exact idleInv_handleCompanyEdit _ _ _ h
  rw [if_neg h14]
  by_cases h15 : (p.state == UserState.EDITING_UNIT) = true
  · rw [if_pos h15]; exact idleInv_handleUnitEdit _ _ _ h
  rw [if_neg h15]
  by_cases h16 : (p.state == UserState.EDITING_CONTACT) = true
  · rw [if_pos h16]; exact idleInv_handleContactEdit _ _ _ h
  rw [if_neg h16]
  exact h

lemma idleInv_handleEditField (p : UserProfile) (d : String) (h : idleInv p) :
    idleInv (handleEditField p d) := by
  unfold handleEditField
  dsimp only
  repeat' split
  all_goals first
    | exact h
    | exact idleInv_set_user_state _ _

lemma idleInv_handleNewIr (p : UserProfile) (h : idleInv p) :
    idleInv (handleNewIr p) := by
  unfold handleNewIr; split
  · exact h
  · exact idleInv_start_ir_creation _

lemma idleInv_handleIrTypeSelection (p : UserProfile) (d : String) (h : idleInv p) :
    idleInv (handleIrTypeSelection p d) := by
  unfold handleIrTypeSelection
  split
  · exact h
  · exact idleInv_set_user_state _ _

lemma idleInv_handleNatureTypeSelection (p : UserProfile) (d : String) (h : idleInv p) :
    idleInv (handleNatureTypeSelection p d) := by
  unfold handleNatureTypeSelection
  split
  · exact h
  · exact idleInv_set_user_state _ _

lemma idleInv_handleCallback (p : UserProfile) (d : String) (h : idleInv p) :
    idleInv (handleCallback p d).profile := by
  unfold handleCallback
  repeat' split
  all_goals first
    | exact h
    | exact idleInv_handleNewIr _ h
    | exact idleInv_handleIrTypeSelection _ _ h
    | exact idleInv_handleNatureTypeSelection _ _ h
    | exact idleInv_handleEditField _ _ h
    | exact idleInv_set_user_state _ _

/-- **C9.** The invariant `current_state == IDLE ⇒ scratch (temp_data) empty`
is preserved by every completed operation of the system — any text message,
any inline-keyboard callback, and the `/start` command, under either
persistence outcome: every path that sets the state to `IDLE`
(`set_user_state`, `clear_user_state`, `register_user`) also clears the
scratch, and no operation writes scratch data while leaving the state at
`IDLE`. -/
theorem claim_C9_idle_scratch_invariant (p : UserProfile) (e : Event) (saveOk : Bool)
    (h : idleInv p) : idleInv (systemStep p e saveOk).profile := by
  cases e with
  | message t => exact idleInv_dispatchMessage p (pyStrip t) saveOk h
  | callback d => exact idleInv_handleCallback p d h
  | start =>
    show idleInv (startCommand p)
    unfold startCommand
    split
    · exact idleInv_set_user_state _ _
    · exact idleInv_set_user_state _ _

/-- Witness for C9: the invariant holds for a fresh profile and is preserved
by a concrete message event. -/
theorem claim_C9_witness :
    idleInv defaultUserProfile
    ∧ idleInv (systemStep defaultUserProfile (Event.message "hello") true).profile :=
  ⟨fun _ => rfl,
   claim_C9_idle_scratch_invariant defaultUserProfile (Event.message "hello") true
     (fun _ => rfl)⟩

/-! ## C7 : final-type reports skip the followup stage -/

lemma containsFinal_ne_empty {s : String} (h : containsFinal s = true) : (s != "") = true := by
  rcases s with ⟨l⟩
  cases l with
  | nil => exact absurd h (by decide)
  | cons c cs =>
    refine bne_iff_ne.mpr (fun heq => ?_)
    exact List.cons_ne_nil c cs (congrArg String.data heq)

lemma dispatchMessage_description (p : UserProfile) (t : String) (b : Bool)
    (hst : p.state = UserState.AWAITING_DESCRIPTION) :
    dispatchMessage p t b
      = ⟨(handleDescriptionInput p t).1, (handleDescriptionInput p t).2⟩ := by
  unfold dispatchMessage
  rw [hst]
  rfl

lemma dispatchMessage_followup (p : UserProfile) (t : String) (b : Bool)
    (hst : p.state = UserState.AWAITING_FOLLOWUP) :
    dispatchMessage p t b
      = ⟨(handleFollowupInput p t).1, (handleFollowupInput p t).2⟩ := by
  unfold dispatchMessage
  rw [hst]
  rfl

/-- **C7.** With a stored report-type label: if the label contains `FINAL`,
a valid description ends the flow immediately — the rendered draft's followup
is the fixed sentence `This serves as a final report` and the state returns to
`IDLE`, never entering `AWAITING_FOLLOWUP`; if the label does not contain
`FINAL`, the flow enters `AWAITING_FOLLOWUP` with nothing rendered, and from
there a report is rendered only once a followup input passes validation (an
invalid followup leaves the state in place and renders nothing). -/
theorem claim_C7_final_type_branch (p : UserProfile) (raw lbl : String)
    (hst : p.state = UserState.AWAITING_DESCRIPTION)
    (hty : tdGet p.temp_data "ir_type" = some lbl)
    (hval : (validate_ir_content (pyStrip raw)).1 = true) :
    (containsFinal lbl = true →
      ∃ d, (handleMessage p raw true).rendered = some d
        ∧ d.followup = "This serves as a final report"
        ∧ (handleMessage p raw true).profile.state = UserState.IDLE)
    ∧ (containsFinal lbl = false →
      (handleMessage p raw true).rendered = none
      ∧ (handleMessage p raw true).profile.state = UserState.AWAITING_FOLLOWUP
      ∧ (∀ raw2 : String,
          ((validate_ir_content (pyStrip raw2)).1 = false →
            (handleMessage (handleMessage p raw true).profile raw2 true).rendered = none
            ∧ (handleMessage (handleMessage p raw true).profile raw2 true).profile.state
                = UserState.AWAITING_FOLLOWUP)
          ∧ ((validate_ir_content (pyStrip raw2)).1 = true →
            ∃ d, (handleMessage (handleMessage p raw true).profile raw2 true).rendered
                = some d
              ∧ d.followup = pyStrip (pyStrip raw2)
              ∧ (handleMessage (handleMessage p raw true).profile raw2 true).profile.state
                  = UserState.IDLE))) := by
  have hdm : handleMessage p raw true
      = ⟨(handleDescriptionInput p (pyStrip raw)).1,
         (handleDescriptionInput p (pyStrip raw)).2⟩ := by
    unfold handleMessage
    exact dispatchMessage_description p (pyStrip raw) true hst
  have hget : get_user_temp_data
      (store_user_temp_data p "description" (pyStrip (pyStrip raw))) "ir_type"
      = some lbl := by
    unfold get_user_temp_data store_user_temp_data
    rw [tdGet_tdSet_ne _ _ (by decide)]
    exact hty
  constructor
  · intro hf
    have hguard : irTypeIsFinal (get_user_temp_data
        (store_user_temp_data p "description" (pyStrip (pyStrip raw))) "ir_type") = true := by
      rw [hget]
      show (lbl != "" && containsFinal lbl) = true
      rw [containsFinal_ne_empty hf, hf]
      rfl
    rw [hdm]
    unfold handleDescriptionInput
    rw [hval]
    simp only [if_true, hguard]
    refine ⟨_, rfl, ?_, ?_⟩
    · show (get_comprehensive_ir_data _).followup = _
      unfold get_comprehensive_ir_data store_user_temp_data
      simp only
      rw [tdGet_tdSet_self]
      rfl
    · show (set_user_state _ UserState.IDLE).state = UserState.IDLE
      exact set_user_state_state _ _
  · intro hf
    have hguard : irTypeIsFinal (get_user_temp_data
        (store_user_temp_data p "description" (pyStrip (pyStrip raw))) "ir_type") = false := by
      rw [hget]
      show (lbl != "" && containsFinal lbl) = false
      rw [hf]
      simp
    have hq : (handleMessage p raw true).profile
        = set_user_state (store_user_temp_data p "description" (pyStrip (pyStrip raw)))
            UserState.AWAITING_FOLLOWUP := by
      rw [hdm]
      unfold handleDescriptionInput
      rw [hval]
      simp only [if_true, hguard]
      rfl
    have hrend : (handleMessage p raw true).rendered = none := by
      rw [hdm]
      unfold handleDescriptionInput
      rw [hval]
      simp only [if_true, hguard]
      rfl
    have hqst : (handleMessage p raw true).profile.state = UserState.AWAITING_FOLLOWUP := by
      rw [hq]; exact set_user_state_state _ _
    refine ⟨hrend, hqst, ?_⟩
    intro raw2
    have hdm2 : handleMessage (handleMessage p raw true).profile raw2 true
        = ⟨(handleFollowupInput (handleMessage p raw true).profile (pyStrip raw2)).1,
           (handleFollowupInput (handleMessage p raw true).profile (pyStrip raw2)).2⟩ := by
      unfold handleMessage
      exact dispatchMessage_followup _ (pyStrip raw2) true hqst
    constructor
    · intro hbad
      rw [hdm2]
      unfold handleFollowupInput
      rw [hbad]
      exact ⟨rfl, hqst⟩
    · intro hok
      rw [hdm2]
      unfold handleFollowupInput
      rw [hok]
      simp only [if_true]
      refine ⟨_, rfl, ?_, ?_⟩
      · show (get_comprehensive_ir_data _).followup = _
        unfold get_comprehensive_ir_data store_user_temp_data
        simp only
        rw [tdGet_tdSet_self]
        rfl
      · show (set_user_state _ UserState.IDLE).state = UserState.IDLE
        exact set_user_state_state _ _

/-- A registered profile mid-report, awaiting the description with a
final-type label stored. -/
def descStageFinalProfile : UserProfile :=
  { registeredIdleProfile with
    state := UserState.AWAITING_DESCRIPTION,
    temp_data := [("ir_type", "UPDATE & FINAL"), ("nature_type", "TRAINING RELATED")] }

/-- Witness for C7: the branch theorem applied to a concrete draft whose
label is `UPDATE & FINAL` and a concrete valid description. -/
theorem claim_C7_witness :
    (descStageFinalProfile.state = UserState.AWAITING_DESCRIPTION
      ∧ tdGet descStageFinalProfile.temp_data "ir_type" = some "UPDATE & FINAL"
      ∧ (validate_ir_content (pyStrip "Trooper slipped during log PT.")).1 = true)
    ∧ (containsFinal "UPDATE & FINAL" = true →
      ∃ d, (handleMessage descStageFinalProfile "Trooper slipped during log PT." true).rendered
          = some d
        ∧ d.followup = "This serves as a final report"
        ∧ (handleMessage descStageFinalProfile "Trooper slipped during log PT."
            true).profile.state = UserState.IDLE) :=
  ⟨⟨rfl, by decide, by decide⟩,
   (claim_C7_final_type_branch descStageFinalProfile "Trooper slipped during log PT."
      "UPDATE & FINAL" rfl (by decide) (by decide)).1⟩

/-! ## C3 : the date/time validator

`specClaimDateTimeAccepts` transcribes the claim's own wording, in which the
`HRS` suffix as a whole is optional; `specDateTimeAmended` is the same
characterization with the suffix rule the code's pattern `^\d{4}HRS?$`
actually implements (mandatory `HR`, optional `S`). -/

/-- The claim's reading of the second token: 4 digits followed by an optional
`HRS` suffix. -/
def claimTimeTokenL : List Char → Bool
  | [a, b, c, d] => isDigitC a && isDigitC b && isDigitC c && isDigitC d
  | [a, b, c, d, 'H', 'R', 'S'] => isDigitC a && isDigitC b && isDigitC c && isDigitC d
  | _ => false

/-- The success condition exactly as the claim states it: two
whitespace-separated tokens, a 6-digit first token with day in `[1,31]` and
month in `[1,12]`, and a second token (case-insensitively) of 4 digits with an
optional `HRS` suffix, hour `≤ 23`, minute `≤ 59`. -/
def specClaimDateTimeAccepts (input : String) : Bool :=
  match pyWords (pyStrip input) with
  | [d, t0] =>
    let t := pyUpper t0
    matchDateL d.toList && claimTimeTokenL t.toList
      && natOfDigits (t.toList.take 2) ≤ 23
      && natOfDigits ((t.toList.take 4).drop 2) ≤ 59
      && 1 ≤ natOfDigits (d.toList.take 2) && natOfDigits (d.toList.take 2) ≤ 31
      && 1 ≤ natOfDigits ((d.toList.take 4).drop 2)
      && natOfDigits ((d.toList.take 4).drop 2) ≤ 12
  | _ => false

/-- **C3, counterexample.** `160625 1730` satisfies the claim's stated success
condition (the `HRS` suffix being optional), but the validator rejects it: the
pattern `^\d{4}HRS?$` makes only the final `S` optional, so a bare `HHMM` time
fails. -/
theorem claim_C3_counterexample :
    specClaimDateTimeAccepts "160625 1730" = true
    ∧ (validate_date_time "160625 1730").1 = false := by
  decide

/-- The amended characterization: as the claim, except that the second token
must be 4 digits followed by `HR` or `HRS` (only the `S` is optional).  On
success it returns the date digits and the 4-digit time. -/
def specDateTimeAmended (input : String) : Option (String × String) :=
  match pyWords (pyStrip input) with
  | [d, t0] =>
    let t := pyUpper t0
    if matchDateL d.toList && matchTimeL t.toList
        && natOfDigits (t.toList.take 2) ≤ 23
        && natOfDigits ((t.toList.take 4).drop 2) ≤ 59
        && 1 ≤ natOfDigits (d.toList.take 2) && natOfDigits (d.toList.take 2) ≤ 31
        && 1 ≤ natOfDigits ((d.toList.take 4).drop 2)
        && natOfDigits ((d.toList.take 4).drop 2) ≤ 12
    then some (d, ⟨t.toList.take 4⟩) else none
  | _ => none

/-- **C3, amended.** `validate_date_time` succeeds exactly on the inputs
accepted by the amended characterization (two whitespace-separated tokens;
6-digit date with day in `[1,31]`, month in `[1,12]` and no month-length or
leap-year cross-check; 4-digit time with a mandatory `HR` and optional `S`,
uppercased, hour `≤ 23`, minute `≤ 59`), and on success returns the date
digits and the 4-digit time as its two normalized parts. -/
theorem claim_C3_date_time_characterization (s : String) :
    (∀ d t, specDateTimeAmended s = some (d, t) → validate_date_time s = (true, d, t, ""))
    ∧ (specDateTimeAmended s = none → (validate_date_time s).1 = false) := by
  unfold specDateTimeAmended validate_date_time
  dsimp only
  by_cases he : (pyStrip s == "") = true
  · have hps : pyStrip s = "" := beq_iff_eq.mp he
    rw [hps]
    have hw : pyWords "" = [] := rfl
    rw [hw]
    exact ⟨fun d t hdt => by simp at hdt, fun _ => rfl⟩
  · have he' : (pyStrip s == "") = false := by simpa using he
    rw [he']
    rcases hw : pyWords (pyStrip s) with _ | ⟨d0, _ | ⟨t0, _ | ⟨w2, ws⟩⟩⟩
    · exact ⟨fun d t hdt => by simp at hdt, fun _ => rfl⟩
    · exact ⟨fun d t hdt => by simp at hdt, fun _ => rfl⟩
    · dsimp only
      simp only [String.toList]
      by_cases hd : matchDateL d0.data = true
      · by_cases ht : matchTimeL (pyUpper t0).data = true
        · by_cases hh : natOfDigits ((pyUpper t0).data.take 2) ≤ 23
          · by_cases hm : natOfDigits (((pyUpper t0).data.take 4).drop 2) ≤ 59
            · have yh : (natOfDigits ((pyUpper t0).data.take 2) > 23
                  || natOfDigits (((pyUpper t0).data.take 4).drop 2) > 59) = false := by
                simp only [Bool.or_eq_false_iff, decide_eq_false_iff_not, not_lt]
                exact ⟨hh, hm⟩
              rw [yh]
              by_cases hday1 : 1 ≤ natOfDigits (d0.data.take 2)
              · by_cases hday2 : natOfDigits (d0.data.take 2) ≤ 31
                · by_cases hmo1 : 1 ≤ natOfDigits ((d0.data.take 4).drop 2)
                  · by_cases hmo2 : natOfDigits ((d0.data.take 4).drop 2) ≤ 12
                    · have yd : (natOfDigits (d0.data.take 2) < 1
                          || natOfDigits (d0.data.take 2) > 31
                          || natOfDigits ((d0.data.take 4).drop 2) < 1
                          || natOfDigits ((d0.data.take 4).drop 2) > 12) = false := by
                        simp only [Bool.or_eq_false_iff, decide_eq_false_iff_not, not_lt]
                        exact ⟨⟨⟨hday1, hday2⟩, hmo1⟩, hmo2⟩
                      rw [yd]
                      simp only [hd, ht, hh, hm, hday1, hday2, hmo1, hmo2,
                        decide_True, Bool.true_and, Bool.and_true, Bool.and_self,
                        Bool.not_true, Bool.false_eq_true, if_false, if_true]
                      refine ⟨fun d t hdt => ?_, fun hn => by simp at hn⟩
                      have hp : d0 = d ∧ ({ data := (pyUpper t0).data.take 4 } : String) = t := by
                        simpa using hdt
                      rw [hp.1, hp.2]
                    · have yd : (natOfDigits (d0.data.take 2) < 1
                          || natOfDigits (d0.data.take 2) > 31
                          || natOfDigits ((d0.data.take 4).drop 2) < 1
                          || natOfDigits ((d0.data.take 4).drop 2) > 12) = true := by
                        simp only [Bool.or_eq_true, decide_eq_true_eq]
                        right; omega
                      rw [yd]
                      simp [hd, ht, hh, hm, hday1, hday2, hmo1, hmo2]
                  · have yd : (natOfDigits (d0.data.take 2) < 1
                        || natOfDigits (d0.data.take 2) > 31
                        || natOfDigits ((d0.data.take 4).drop 2) < 1
                        || natOfDigits ((d0.data.take 4).drop 2) > 12) = true := by
                      simp only [Bool.or_eq_true, decide_eq_true_eq]
                      left; right; omega
                    rw [yd]
                    simp [hd, ht, hh, hm, hday1, hday2, hmo1]
                · have yd : (natOfDigits (d0.data.take 2) < 1
                      || natOfDigits (d0.data.take 2) > 31
                      || natOfDigits ((d0.data.take 4).drop 2) < 1
                      || natOfDigits ((d0.data.take 4).drop 2) > 12) = true := by
                    simp only [Bool.or_eq_true, decide_eq_true_eq]
                    left; left; right; omega
                  rw [yd]
                  simp [hd, ht, hh, hm, hday1, hday2]
              · have yd : (natOfDigits (d0.data.take 2) < 1
                    || natOfDigits (d0.data.take 2) > 31
                    || natOfDigits ((d0.data.take 4).drop 2) < 1
                    || natOfDigits ((d0.data.take 4).drop 2) > 12) = true := by
                  simp only [Bool.or_eq_true, decide_eq_true_eq]
                  left; left; left; omega
                rw [yd]
                simp [hd, ht, hh, hm, hday1]
            · have yh : (natOfDigits ((pyUpper t0).data.take 2) > 23
                  || natOfDigits (((pyUpper t0).data.take 4).drop 2) > 59) = true := by
                simp only [Bool.or_eq_true, decide_eq_true_eq]
                right; omega
              rw [yh]
              simp [hd, ht, hh, hm]
          · have yh : (natOfDigits ((pyUpper t0).data.take 2) > 23
                || natOfDigits (((pyUpper t0).data.take 4).drop 2) > 59) = true := by
              simp only [Bool.or_eq_true, decide_eq_true_eq]
              left; omega
            rw [yh]
            simp [hd, ht, hh]
        · have ht' : matchTimeL (pyUpper t0).data = false := by simpa using ht
          rw [ht']
          simp [hd]
      · have hd' : matchDateL d0.data = false := by simpa using hd
        rw [hd']
        simp
    · exact ⟨fun d t hdt => by simp at hdt, fun _ => rfl⟩

/-- Witness for C3: the amended characterization evaluated at the spec's own
example `160625 1730HRS`, which the validator splits into parts
`("160625", "1730")`. -/
theorem claim_C3_witness :
    specDateTimeAmended "160625 1730HRS" = some ("160625", "1730")
    ∧ validate_date_time "160625 1730HRS" = (true, "160625", "1730", "") :=
  ⟨by decide,
   (claim_C3_date_time_characterization "160625 1730HRS").1 "160625" "1730" (by decide)⟩

/-! ## C6 : the serviceman-details validator -/

/-- The claim's success condition for serviceman details: the input splits on
`/` into exactly 5 components whose stripped forms satisfy — NRIC one letter +
7 digits + one letter (case-insensitive), PES `PES ` + letter `A`–`F` + digit
`1`–`9` (case-insensitive, like the code it is matched after uppercasing), the
fourth component equals `NSF` case-insensitively, and the rank+name and
identifier components are non-empty. -/
def specServicemanAccepts (input : String) : Bool :=
  match pySplitSlash (pyStrip input) with
  | [c1, c2, c3, c4, c5] =>
    matchNricL (pyUpper (pyStrip c1)).toList
    && matchPesL (pyUpper (pyStrip c5)).toList
    && !(pyStrip c2 == "")
    && !(pyStrip c3 == "")
    && (pyUpper (pyStrip c4) == "NSF")
  | _ => false

/-- The claim's rendered output: the slash-joined uppercase canonical string
with a `/` inserted after the NRIC's first letter. -/
def specServicemanRender (input : String) : String :=
  match pySplitSlash (pyStrip input) with
  | [c1, c2, c3, c4, c5] =>
    formatNric (pyStrip c1) ++ "/" ++ pyUpper (pyStrip c2) ++ "/" ++ pyUpper (pyStrip c3)
      ++ "/" ++ pyUpper (pyStrip c4) ++ "/" ++ pyUpper (pyStrip c5)
  | _ => ""

/-- **C6.** `validate_serviceman_details` succeeds exactly on the claim's
success condition, renders the canonical uppercase slash-joined string with
the `/` inserted after the NRIC's first letter, and in particular accepts
`T0123456D/PTE TAN/S1234/NSF/PES B1` (rendered
`T/0123456D/PTE TAN/S1234/NSF/PES B1`) while rejecting the PES letter `G` in
`T0123456D/PTE TAN/S1234/NSF/PES G9`. -/
theorem claim_C6_serviceman_characterization (s : String) :
    (specServicemanAccepts s = true →
      validate_serviceman_details s = (true, specServicemanRender s, ""))
    ∧ (specServicemanAccepts s = false → (validate_serviceman_details s).1 = false)
    ∧ validate_serviceman_details "T0123456D/PTE TAN/S1234/NSF/PES B1"
        = (true, "T/0123456D/PTE TAN/S1234/NSF/PES B1", "")
    ∧ (validate_serviceman_details "T0123456D/PTE TAN/S1234/NSF/PES G9").1 = false := by
  refine ⟨?_, ?_, by decide, by decide⟩ <;>
  · unfold specServicemanAccepts validate_serviceman_details
    try unfold specServicemanRender
    dsimp only
    by_cases he : (pyStrip s == "") = true
    · have hps : pyStrip s = "" := beq_iff_eq.mp he
      rw [hps]
      have hw : pySplitSlash "" = [""] := rfl
      rw [hw]
      first
        | exact fun hcl => absurd hcl (by decide)
        | exact fun hcl => rfl
    · have he' : (pyStrip s == "") = false := by simpa using he
      rw [he']
      rcases hw : pySplitSlash (pyStrip s) with _ | ⟨c1, _ | ⟨c2, _ | ⟨c3, _ | ⟨c4, _ | ⟨c5, _ | ⟨c6, cs⟩⟩⟩⟩⟩⟩
      · simp
      · simp
      · simp
      · simp
      · simp
      · dsimp only
        simp only [String.toList]
        by_cases hn : matchNricL (pyUpper (pyStrip c1)).data = true
        · by_cases hp : matchPesL (pyUpper (pyStrip c5)).data = true
          · by_cases hrn : (pyStrip c2 == "") = true
            · simp [hn, hp, hrn, beq_iff_eq.mp hrn]
            · have hrn2 : (pyStrip c2 == "") = false := by simpa using hrn
              by_cases hfd : (pyStrip c3 == "") = true
              · simp [hn, hp, hrn2, hfd, beq_iff_eq.mp hfd]
              · have hfd2 : (pyStrip c3 == "") = false := by simpa using hfd
                by_cases hns : (pyUpper (pyStrip c4) == "NSF") = true
                · have hns2 : (pyUpper (pyStrip c4) != "NSF") = false := by
                    show (!(pyUpper (pyStrip c4) == "NSF")) = false
                    rw [hns]
                    rfl
                  simp [hn, hp, hrn2, hfd2, hns, hns2]
                · have hns1 : (pyUpper (pyStrip c4) == "NSF") = false := by simpa using hns
                  have hns2 : (pyUpper (pyStrip c4) != "NSF") = true := by
                    show (!(pyUpper (pyStrip c4) == "NSF")) = true
                    rw [hns1]
                    rfl
                  simp [hn, hp, hrn2, hfd2, hns1, hns2]
          · have hp1 : matchPesL (pyUpper (pyStrip c5)).data = false := by simpa using hp
            simp [hn, hp1]
        · have hn1 : matchNricL (pyUpper (pyStrip c1)).data = false := by simpa using hn
          simp [hn1]
      · simp

/-- Witness for C6: the characterization applied at the spec's positive
example. -/
theorem claim_C6_witness :
    specServicemanAccepts "T0123456D/PTE TAN/S1234/NSF/PES B1" = true
    ∧ validate_serviceman_details "T0123456D/PTE TAN/S1234/NSF/PES B1"
        = (true, specServicemanRender "T0123456D/PTE TAN/S1234/NSF/PES B1", "") :=
  ⟨by decide,
   (claim_C6_serviceman_characterization "T0123456D/PTE TAN/S1234/NSF/PES B1").1 (by decide)⟩

/-! ## C4 : the registration sequence

Supporting lemmas: a validated registration input yields a non-empty stored
scratch value (`input.upper().strip()`), which is what the terminal contact
transition's `all([...])` completeness check consumes. -/

lemma dropWhile_eq_nil_iff_all (pr : Char → Bool) (l : List Char) :
    l.dropWhile pr = [] ↔ l.all pr = true := by
  induction l with
  | nil => simp
  | cons c cs ih =>
    by_cases hc : pr c = true
    · simp [List.dropWhile_cons, hc, ih]
    · have hc' : pr c = false := by simpa using hc
      simp [List.dropWhile_cons, hc']

lemma all_dropWhile (pr : Char → Bool) (l : List Char) :
    (l.dropWhile pr).all pr = l.all pr := by
  induction l with
  | nil => rfl
  | cons c cs ih =>
    by_cases hc : pr c = true
    · simp [List.dropWhile_cons, hc, ih]
    · have hc' : pr c = false := by simpa using hc
      simp [List.dropWhile_cons, hc']

lemma pyStripL_eq_nil_iff (l : List Char) :
    pyStripL l = [] ↔ l.all isSpace = true := by
  unfold pyStripL
  rw [List.reverse_eq_nil_iff, dropWhile_eq_nil_iff_all, List.all_reverse,
    all_dropWhile]

lemma pyStrip_eq_empty_iff (x : String) :
    pyStrip x = "" ↔ x.data.all isSpace = true := by
  rcases x with ⟨l⟩
  unfold pyStrip
  constructor
  · intro hh
    exact (pyStripL_eq_nil_iff l).mp (congrArg String.data hh)
  · intro hh
    show (⟨pyStripL l⟩ : String) = ""
    rw [(pyStripL_eq_nil_iff l).mpr hh]

lemma isSpace_upChar (c : Char) : isSpace (upChar c) = isSpace c := by
  unfold upChar
  split <;> rfl

lemma pyStrip_pyUpper_eq_empty_iff (x : String) :
    pyStrip (pyUpper x) = "" ↔ pyStrip x = "" := by
  rw [pyStrip_eq_empty_iff, pyStrip_eq_empty_iff]
  rcases x with ⟨l⟩
  show (l.map upChar).all isSpace = true ↔ l.all isSpace = true
  rw [List.all_map]
  constructor
  · intro hh
    rw [List.all_eq_true] at hh ⊢
    intro c hcmem
    rw [← isSpace_upChar c]
    exact hh c hcmem
  · intro hh
    rw [List.all_eq_true] at hh ⊢
    intro c hcmem
    show isSpace (upChar c) = true
    rw [isSpace_upChar c]
    exact hh c hcmem

/-- A value accepted by one of the four text validators stores a non-empty
`value.upper().strip()` in scratch. -/
lemma stored_upper_nonempty {t : String} (hne : ¬pyStrip t = "") :
    isTruthy (some (pyStrip (pyUpper t))) = true := by
  show (pyStrip (pyUpper t) != "") = true
  have h3 : ¬pyStrip (pyUpper t) = "" :=
    fun heq => hne ((pyStrip_pyUpper_eq_empty_iff t).mp heq)
  simpa [bne_iff_ne] using h3

lemma validate_rank_strip_nonempty {t : String} (h : (validate_rank t).1 = true) :
    ¬pyStrip t = "" := by
  unfold validate_rank at h
  dsimp only at h
  by_cases hc : (pyUpper (pyStrip t) == "") = true
  · rw [hc] at h
    simp at h
  · intro heq
    apply hc
    rw [heq]
    rfl

lemma validate_name_strip_nonempty {t : String} (h : (validate_name t).1 = true) :
    ¬pyStrip t = "" := by
  unfold validate_name at h
  dsimp only at h
  by_cases hc : (pyStrip t == "") = true
  · rw [hc] at h
    simp at h
  · exact fun heq => hc (by rw [heq]; rfl)

lemma validate_company_strip_nonempty {t : String} (h : (validate_company t).1 = true) :
    ¬pyStrip t = "" := by
  unfold validate_company at h
  dsimp only at h
  by_cases hc : (pyStrip t == "") = true
  · rw [hc] at h
    simp at h
  · exact fun heq => hc (by rw [heq]; rfl)

lemma validate_unit_strip_nonempty {t : String} (h : (validate_unit t).1 = true) :
    ¬pyStrip t = "" := by
  unfold validate_unit at h
  dsimp only at h
  by_cases hc : (pyStrip t == "") = true
  · rw [hc] at h
    simp at h
  · exact fun heq => hc (by rw [heq]; rfl)

/-! ### Dispatch lemmas for the registration states -/

lemma dispatchMessage_rank (p : UserProfile) (t : String) (b : Bool)
    (hst : p.state = UserState.AWAITING_RANK) :
    dispatchMessage p t b = ⟨handleRankInput p t, none⟩ := by
  unfold dispatchMessage
  rw [hst]
  rfl

lemma dispatchMessage_name (p : UserProfile) (t : String) (b : Bool)
    (hst : p.state = UserState.AWAITING_NAME) :
    dispatchMessage p t b = ⟨handleNameInput p t, none⟩ := by
  unfold dispatchMessage
  rw [hst]
  rfl

lemma dispatchMessage_company (p : UserProfile) (t : String) (b : Bool)
    (hst : p.state = UserState.AWAITING_COMPANY) :
    dispatchMessage p t b = ⟨handleCompanyInput p t, none⟩ := by
  unfold dispatchMessage
  rw [hst]
  rfl

lemma dispatchMessage_unit (p : UserProfile) (t : String) (b : Bool)
    (hst : p.state = UserState.AWAITING_UNIT) :
    dispatchMessage p t b = ⟨handleUnitInput p t, none⟩ := by
  unfold dispatchMessage
  rw [hst]
  rfl

lemma dispatchMessage_contact (p : UserProfile) (t : String) (b : Bool)
    (hst : p.state = UserState.AWAITING_CONTACT) :
    dispatchMessage p t b = ⟨handleContactInput p t, none⟩ := by
  unfold dispatchMessage
  rw [hst]
  rfl

lemma dispatchMessage_idle (p : UserProfile) (t : String) (b : Bool)
    (hst : p.state = UserState.IDLE) :
    dispatchMessage p t b = ⟨p, none⟩ := by
  unfold dispatchMessage
  rw [hst]
  rfl

/-! ### The registration simulation -/

/-- One fully-persisted message step (`_save_users` succeeding throughout). -/
def runMessages (p : UserProfile) (inputs : List String) : UserProfile :=
  inputs.foldl (fun q raw => (handleMessage q raw true).profile) p

/-- The claim's reading of registration progress: the number of the five
fields (rank, name, company, unit, contact) validated successfully in order,
each validator applied to the stripped message text; progress saturates at 5
(registration complete). -/
def specRegStep : Nat → String → Nat
  | 0, t => if (validate_rank t).1 then 1 else 0
  | 1, t => if (validate_name t).1 then 2 else 1
  | 2, t => if (validate_company t).1 then 3 else 2
  | 3, t => if (validate_unit t).1 then 4 else 3
  | 4, t => if (validate_contact_number t).1 then 5 else 4
  | n, _ => n

/-- Progress of a whole input sequence, starting from no field validated. -/
def specRegProgress (inputs : List String) : Nat :=
  inputs.foldl (fun n raw => specRegStep n (pyStrip raw)) 0

/-- A fresh record put into the registration flow by `/start`. -/
def freshAtRank : UserProfile := startCommand defaultUserProfile

/-- The wizard state corresponding to each progress count. -/
def regStateOf : Nat → String
  | 0 => UserState.AWAITING_RANK
  | 1 => UserState.AWAITING_NAME
  | 2 => UserState.AWAITING_COMPANY
  | 3 => UserState.AWAITING_UNIT
  | 4 => UserState.AWAITING_CONTACT
  | _ => UserState.IDLE

/-- Simulation invariant tying a profile to its registration progress:
the state follows the chain, `registered` is set exactly at completion,
every already-validated field sits non-empty in scratch while the chain is
still running, and completion has persisted all five record fields. -/
def RegInv (p : UserProfile) (n : Nat) : Prop :=
  p.state = regStateOf n
  ∧ p.registered = decide (n = 5)
  ∧ (1 ≤ n ∧ n ≤ 4 → isTruthy (tdGet p.temp_data "rank") = true)
  ∧ (2 ≤ n ∧ n ≤ 4 → isTruthy (tdGet p.temp_data "full_name") = true)
  ∧ (3 ≤ n ∧ n ≤ 4 → isTruthy (tdGet p.temp_data "company") = true)
  ∧ (4 ≤ n ∧ n ≤ 4 → isTruthy (tdGet p.temp_data "unit") = true)
  ∧ (n = 5 → p.rank.isSome = true ∧ p.full_name.isSome = true
      ∧ p.company.isSome = true ∧ p.unit.isSome = true
      ∧ p.contact_number.isSome = true)
  ∧ n ≤ 5

lemma RegInv_step (p : UserProfile) (n : Nat) (raw : String) (h : RegInv p n) :
    RegInv (handleMessage p raw true).profile (specRegStep n (pyStrip raw)) := by
  obtain ⟨hst, hreg, h1, h2, h3, h4, h5, hn5⟩ := h
  unfold handleMessage
  rcases n with _ | _ | _ | _ | _ | _ | m
  · -- n = 0 : awaiting rank
    rw [dispatchMessage_rank p (pyStrip raw) true hst]
    unfold handleRankInput specRegStep
    by_cases hv : (validate_rank (pyStrip raw)).1 = true
    · simp only [hv, if_true]
      refine ⟨set_user_state_state _ _, ?_, ?_, ?_, ?_, ?_, ?_, ?_⟩
      · rw [set_user_state_registered]
        exact hreg
      · intro _
        rw [set_user_state_temp_of_ne _ (by decide)]
        show isTruthy (tdGet (tdSet p.temp_data "rank" (pyStrip (pyUpper (pyStrip raw)))) "rank") = true
        rw [tdGet_tdSet_self]
        exact stored_upper_nonempty (validate_rank_strip_nonempty hv)
      · omega
      · omega
      · omega
      · omega
      · omega
    · have hv' : (validate_rank (pyStrip raw)).1 = false := by simpa using hv
      simp only [hv', Bool.false_eq_true, if_false]
      exact ⟨hst, hreg, h1, h2, h3, h4, h5, hn5⟩
  · -- n = 1 : awaiting name
    rw [dispatchMessage_name p (pyStrip raw) true hst]
    unfold handleNameInput specRegStep
    by_cases hv : (validate_name (pyStrip raw)).1 = true
    · simp only [hv, if_true]
      refine ⟨set_user_state_state _ _, ?_, ?_, ?_, ?_, ?_, ?_, ?_⟩
      · rw [set_user_state_registered]
        exact hreg
      · intro _
        rw [set_user_state_temp_of_ne _ (by decide)]
        show isTruthy (tdGet (tdSet p.temp_data "full_name" _) "rank") = true
        rw [tdGet_tdSet_ne _ _ (by decide)]
        exact h1 ⟨by omega, by omega⟩
      · intro _
        rw [set_user_state_temp_of_ne _ (by decide)]
        show isTruthy (tdGet (tdSet p.temp_data "full_name" (pyStrip (pyUpper (pyStrip raw)))) "full_name") = true
        rw [tdGet_tdSet_self]
        exact stored_upper_nonempty (validate_name_strip_nonempty hv)
      · omega
      · omega
      · omega
      · omega
    · have hv' : (validate_name (pyStrip raw)).1 = false := by simpa using hv
      simp only [hv', Bool.false_eq_true, if_false]
      exact ⟨hst, hreg, h1, h2, h3, h4, h5, hn5⟩
  · -- n = 2 : awaiting company
    rw [dispatchMessage_company p (pyStrip raw) true hst]
    unfold handleCompanyInput specRegStep
    by_cases hv : (validate_company (pyStrip raw)).1 = true
    · simp only [hv, if_true]
      refine ⟨set_user_state_state _ _, ?_, ?_, ?_, ?_, ?_, ?_, ?_⟩
      · rw [set_user_state_registered]
        exact hreg
      · intro _
        rw [set_user_state_temp_of_ne _ (by decide)]
        show isTruthy (tdGet (tdSet p.temp_data "company" _) "rank") = true
        rw [tdGet_tdSet_ne _ _ (by decide)]
        exact h1 ⟨by omega, by omega⟩
      · intro _
        rw [set_user_state_temp_of_ne _ (by decide)]
        show isTruthy (tdGet (tdSet p.temp_data "company" _) "full_name") = true
        rw [tdGet_tdSet_ne _ _ (by decide)]
        exact h2 ⟨by omega, by omega⟩
      · intro _
        rw [set_user_state_temp_of_ne _ (by decide)]
        show isTruthy (tdGet (tdSet p.temp_data "company" (pyStrip (pyUpper (pyStrip raw)))) "company") = true
        rw [tdGet_tdSet_self]
        exact stored_upper_nonempty (validate_company_strip_nonempty hv)
      · omega
      · omega
      · omega
    · have hv' : (validate_company (pyStrip raw)).1 = false := by simpa using hv
      simp only [hv', Bool.false_eq_true, if_false]
      exact ⟨hst, hreg, h1, h2, h3, h4, h5, hn5⟩
  · -- n = 3 : awaiting unit
    rw [dispatchMessage_unit p (pyStrip raw) true hst]
    unfold handleUnitInput specRegStep
    by_cases hv : (validate_unit (pyStrip raw)).1 = true
    · simp only [hv, if_true]
      refine ⟨set_user_state_state _ _, ?_, ?_, ?_, ?_, ?_, ?_, ?_⟩
      · rw [set_user_state_registered]
        exact hreg
      · intro _
        rw [set_user_state_temp_of_ne _ (by decide)]
        show isTruthy (tdGet (tdSet p.temp_data "unit" _) "rank") = true
        rw [tdGet_tdSet_ne _ _ (by decide)]
        exact h1 ⟨by omega, by omega⟩
      · intro _
        rw [set_user_state_temp_of_ne _ (by decide)]
        show isTruthy (tdGet (tdSet p.temp_data "unit" _) "full_name") = true
        rw [tdGet_tdSet_ne _ _ (by decide)]
        exact h2 ⟨by omega, by omega⟩
      · intro _
        rw [set_user_state_temp_of_ne _ (by decide)]
        show isTruthy (tdGet (tdSet p.temp_data "unit" _) "company") = true
        rw [tdGet_tdSet_ne _ _ (by decide)]
        exact h3 ⟨by omega, by omega⟩
      · intro _
        rw [set_user_state_temp_of_ne _ (by decide)]
        show isTruthy (tdGet (tdSet p.temp_data "unit" (pyStrip (pyUpper (pyStrip raw)))) "unit") = true
        rw [tdGet_tdSet_self]
        exact stored_upper_nonempty (validate_unit_strip_nonempty hv)
      · omega
      · omega
    · have hv' : (validate_unit (pyStrip raw)).1 = false := by simpa using hv
      simp only [hv', Bool.false_eq_true, if_false]
      exact ⟨hst, hreg, h1, h2, h3, h4, h5, hn5⟩
  · -- n = 4 : awaiting contact, the terminal transition
    rw [dispatchMessage_contact p (pyStrip raw) true hst]
    unfold handleContactInput specRegStep
    dsimp only
    by_cases hv : (validate_contact_number (pyStrip raw)).1 = true
    · have hr : isTruthy (get_user_temp_data p "rank") = true := h1 ⟨by omega, by omega⟩
      have hnm : isTruthy (get_user_temp_data p "full_name") = true := h2 ⟨by omega, by omega⟩
      have hcp : isTruthy (get_user_temp_data p "company") = true := h3 ⟨by omega, by omega⟩
      have hu : isTruthy (get_user_temp_data p "unit") = true := h4 ⟨by omega, by omega⟩
      simp only [hv, hr, hnm, hcp, hu, Bool.and_self, Bool.not_true,
        Bool.false_eq_true, if_false, if_true]
      exact ⟨rfl, rfl, by omega, by omega, by omega, by omega,
        fun _ => ⟨rfl, rfl, rfl, rfl, rfl⟩, by omega⟩
    · have hv' : (validate_contact_number (pyStrip raw)).1 = false := by simpa using hv
      simp only [hv', Bool.false_eq_true, if_false]
      exact ⟨hst, hreg, h1, h2, h3, h4, h5, hn5⟩
  · -- n = 5 : idle, nothing changes
    rw [dispatchMessage_idle p (pyStrip raw) true hst]
    exact ⟨hst, hreg, h1, h2, h3, h4, h5, hn5⟩
  · -- n ≥ 6 is ruled out by the invariant
    omega

lemma RegInv_foldl (l : List String) (p : UserProfile) (n : Nat) (h : RegInv p n) :
    RegInv (l.foldl (fun q raw => (handleMessage q raw true).profile) p)
      (l.foldl (fun m raw => specRegStep m (pyStrip raw)) n) := by
  induction l generalizing p n with
  | nil => exact h
  | cons hd tl ih => exact ih _ _ (RegInv_step p n hd h)

/-- **C4.** Starting from a fresh record put into the registration flow by
`/start`, a sequence of message inputs ends with `registered = true` exactly
when the five field validators (rank, name, company, unit, contact) succeeded
in order on it (`specRegProgress` reaching 5); on completion all five
particulars are persisted in the record and the state is back to `IDLE`; and
the terminal transition (`register_user`) writes the five collected values,
the `registered` flag, the `IDLE` state and the scratch reset in one single
profile update. -/
theorem claim_C4_registration_iff (inputs : List String) :
    ((runMessages freshAtRank inputs).registered = true ↔ specRegProgress inputs = 5)
    ∧ ((runMessages freshAtRank inputs).registered = true →
        (runMessages freshAtRank inputs).rank.isSome = true
        ∧ (runMessages freshAtRank inputs).full_name.isSome = true
        ∧ (runMessages freshAtRank inputs).company.isSome = true
        ∧ (runMessages freshAtRank inputs).unit.isSome = true
        ∧ (runMessages freshAtRank inputs).contact_number.isSome = true
        ∧ (runMessages freshAtRank inputs).state = UserState.IDLE)
    ∧ (∀ (q : UserProfile) (r nm c u ct : String),
        register_user_mem q r nm c u ct =
          { q with
            rank := some (pyStrip (pyUpper r)),
            full_name := some (pyStrip (pyUpper nm)),
            company := some (pyStrip (pyUpper c)),
            unit := some (pyStrip (pyUpper u)),
            contact_number := some (cleanContact ct),
            registered := true,
            state := UserState.IDLE,
            temp_data := [] }) := by
  have h0 : RegInv freshAtRank 0 := by
    refine ⟨rfl, rfl, ?_, ?_, ?_, ?_, ?_, ?_⟩ <;> omega
  have h := RegInv_foldl inputs freshAtRank 0 h0
  obtain ⟨hst, hreg, _, _, _, _, h5, hn5⟩ := h
  unfold runMessages specRegProgress
  refine ⟨?_, ?_, fun q r nm c u ct => rfl⟩
  · rw [hreg]
    constructor
    · intro hd
      simpa using hd
    · intro he
      rw [he]
      rfl
  · intro hd
    have hn : List.foldl (fun m raw => specRegStep m (pyStrip raw)) 0 inputs = 5 := by
      rw [hreg] at hd
      simpa using hd
    obtain ⟨f1, f2, f3, f4, f5⟩ := h5 hn
    refine ⟨f1, f2, f3, f4, f5, ?_⟩
    rw [hst, hn]
    rfl

/-- A concrete full registration dialogue. -/
def regDemoInputs : List String :=
  ["pte", "Tan Ah Kow", "Alpha", "1 SIR", "+65 9123 4567"]

/-- Witness for C4: the characterization at a concrete five-input dialogue
that validates in order, plus the `registered` flag it produces. -/
theorem claim_C4_witness :
    specRegProgress regDemoInputs = 5
    ∧ (runMessages freshAtRank regDemoInputs).registered = true
    ∧ (runMessages freshAtRank regDemoInputs).state = UserState.IDLE :=
  ⟨by decide,
   (claim_C4_registration_iff regDemoInputs).1.mpr (by decide),
   ((claim_C4_registration_iff regDemoInputs).2.1
      ((claim_C4_registration_iff regDemoInputs).1.mpr (by decide))).2.2.2.2.2⟩

end IRGen
